import Mathlib

/-!
Shallow embedding of the macrochain-ai web service (the FastAPI app in
src/api/app.py, the analyzers in src/core/, the research pipeline in
src/core/research_pipeline.py and the report formatter in
src/services/research_formatter.py), together with theorems settling the
spec claims about it.

Python dictionaries are modelled by an association-list JSON value type.
Nondeterministic runtime inputs (timestamps, uuids, wall-clock execution
times) are passed in explicitly through a `Runtime` record. Python
exceptions are modelled with `Except String`; a `try/except` of the source
becomes a `match` on that value.
-/

/-- A Python value as the repository manipulates it: None, bool, number
(ints and floats both, as rationals), string, list, dict (association
list in insertion order). -/
inductive Json where
  | null : Json
  | bool : Bool → Json
  | num : Rat → Json
  | str : String → Json
  | arr : List Json → Json
  | obj : List (String × Json) → Json

/-- First value bound to `k`, as Python dict lookup (keys here are unique). -/
def jlookup : List (String × Json) → String → Option Json
  | [], _ => none
  | (k, v) :: rest, key => if k = key then some v else jlookup rest key

/-- `d.get(k)` when `d` is a dict: `none` when the key is absent or the
value is not a dict at all. -/
def Json.get? (j : Json) (k : String) : Option Json :=
  match j with
  | Json.obj fields => jlookup fields k
  | _ => none

/-- Python `d.get(k, default)`. -/
def Json.getD (j : Json) (k : String) (d : Json) : Json :=
  (j.get? k).getD d

/-- Python `d.get(k)` with its implicit `None` default. -/
def Json.getN (j : Json) (k : String) : Json :=
  j.getD k Json.null

/-- Python `d[k]`: the value, or a `KeyError` whose `str` is the quoted key. -/
def jidx (j : Json) (k : String) : Except String Json :=
  match j.get? k with
  | some v => Except.ok v
  | none => Except.error ("'" ++ k ++ "'")

/-- Python truthiness of a value. -/
def Json.truthy : Json → Bool
  | Json.null => false
  | Json.bool b => b
  | Json.num q => ¬ q = 0
  | Json.str s => ¬ s = ""
  | Json.arr xs => ¬ xs.isEmpty
  | Json.obj fields => ¬ fields.isEmpty

/-- `v == "s"` for a Python value and a string literal. -/
def Json.eqStr (j : Json) (s : String) : Bool :=
  match j with
  | Json.str t => t = s
  | _ => false

/-- Python `v in [s1, ..., sn]` for string members. -/
def Json.memStr (j : Json) (ss : List String) : Bool :=
  match j with
  | Json.str t => ss.contains t
  | _ => false

/-- The string carried by a value (used where the source interpolates a
value that is always a string into an f-string). -/
def Json.asStr : Json → String
  | Json.str s => s
  | _ => ""

/-- `d.get(k, default)` where the source then uses the result as a string. -/
def Json.getStrD (j : Json) (k : String) (d : String) : String :=
  (j.getD k (Json.str d)).asStr

/-- `d.get(k, [])` where the source then iterates the result as a list. -/
def Json.getArrD (j : Json) (k : String) : List Json :=
  match j.getD k (Json.arr []) with
  | Json.arr xs => xs
  | _ => []

/-- The elements of a list value (empty for anything else). -/
def Json.elems : Json → List Json
  | Json.arr xs => xs
  | _ => []

/-- A dict with one top-level key removed (to state "equal except for the
timestamp field"). -/
def Json.removeKey (j : Json) (k : String) : Json :=
  match j with
  | Json.obj fields => Json.obj (fields.filter (fun kv => ¬ kv.1 = k))
  | other => other

/-- Python `str.strip()` (whitespace at both ends removed), over the
character list so it evaluates by kernel reduction. -/
def pyStrip (s : String) : String :=
  String.mk (((s.data.dropWhile Char.isWhitespace).reverse.dropWhile
    Char.isWhitespace).reverse)

/-- Python `str.lower()`. -/
def pyLower (s : String) : String :=
  s.toLower

/-- Python `str.title()`: each alphabetic run starts uppercased, the rest
of the run lowercased. -/
def pyTitleGo : List Char → Bool → List Char
  | [], _ => []
  | c :: rest, prevAlpha =>
    if c.isAlpha then
      (if prevAlpha then c.toLower else c.toUpper) :: pyTitleGo rest true
    else
      c :: pyTitleGo rest false

/-- Python `str.title()` over a string. -/
def pyTitle (s : String) : String :=
  String.mk (pyTitleGo s.data false)

/-- Python `", ".join(xs)`. -/
def pyJoin (sep : String) (xs : List String) : String :=
  String.intercalate sep xs

/-- Python `f"{q:.1f}"` for the nonnegative rationals the code formats
(used only for the success-rate percentage). -/
def fmtOneDecimal (q : Rat) : String :=
  let tenths : Int := (q * 10).floor
  toString (tenths / 10) ++ "." ++ toString (tenths % 10)

/-! ## src/config/settings.py -/

/-- `Settings` from src/config/settings.py with its field defaults. -/
structure Settings where
  apiHost : String
  apiPort : Nat
  apiTitle : String
  apiDescription : String
  apiVersion : String
  maxAnalysisLength : Nat
  analysisTimeout : Nat
  llmProvider : String
  llmModel : String
  llmTemperature : Rat
  llmMaxTokens : Nat
  enableOnchainData : Bool
  enableSentimentData : Bool
  enableMacroData : Bool
  maxRiskLevel : String
  requireDisclaimer : Bool
  logLevel : String
  logFormat : String

/-- The module-level `settings = Settings()` instance (all defaults). -/
def settingsDefault : Settings :=
  ⟨"0.0.0.0", 8000, "MacroChain AI API",
   "AI-powered crypto market analysis agent", "1.0.0",
   2000, 30, "openai", "gpt-3.5-turbo", (3 : Rat) / 10, 1000,
   true, true, true, "medium", true, "INFO",
   "%(asctime)s - %(name)s - %(levelname)s - %(message)s"⟩

/-- `get_api_config()` from src/config/settings.py. -/
def getApiConfig (s : Settings) : Json :=
  Json.obj [
    ("host", Json.str s.apiHost),
    ("port", Json.num s.apiPort),
    ("title", Json.str s.apiTitle),
    ("description", Json.str s.apiDescription),
    ("version", Json.str s.apiVersion)]

/-! ## src/core/macro.py — MacroAnalyzer -/

/-- `MacroAnalyzer._assess_overall_liquidity`. -/
def macroAssessOverallLiquidity (_factors : Json) : String :=
  "neutral"

/-- `MacroAnalyzer._analyze_liquidity_conditions`. -/
def macroAnalyzeLiquidityConditions : Json :=
  let liquidityFactors := Json.obj [
    ("central_bank_policies", Json.obj [
      ("status", Json.str "accommodative"),
      ("impact", Json.str "Central bank balance sheets affect global liquidity"),
      ("explanation", Json.str "When central banks expand balance sheets through quantitative easing, it typically increases available liquidity that can flow into various asset classes, including cryptocurrencies.")]),
    ("dollar_strength", Json.obj [
      ("status", Json.str "neutral"),
      ("impact", Json.str "Strong dollar can pressure crypto prices"),
      ("explanation", Json.str "A stronger US dollar typically makes dollar-denominated assets more expensive for international investors, potentially reducing demand for cryptocurrencies.")]),
    ("credit_conditions", Json.obj [
      ("status", Json.str "moderate"),
      ("impact", Json.str "Credit availability influences risk asset demand"),
      ("explanation", Json.str "Loose credit conditions often correlate with higher demand for risk assets like cryptocurrencies, while tight credit conditions can reduce investment flows.")])]
  Json.obj [
    ("factors", liquidityFactors),
    ("overall_status", Json.str (macroAssessOverallLiquidity liquidityFactors)),
    ("trend", Json.str "stable"),
    ("key_observations", Json.arr [
      Json.str "Global liquidity remains a key driver of crypto market cycles",
      Json.str "Liquidity changes often precede price movements in crypto markets",
      Json.str "Cross-asset liquidity correlations are important to monitor"])]

/-- `MacroAnalyzer._assess_rate_implications`. -/
def macroAssessRateImplications (_factors : Json) : Json :=
  Json.obj [
    ("overall", Json.str "neutral"),
    ("key_considerations", Json.arr [
      Json.str "Rate expectations matter more than current rates",
      Json.str "Real rates impact investment decisions",
      Json.str "Policy divergence creates complexity"])]

/-- `MacroAnalyzer._analyze_interest_rate_environment`. -/
def macroAnalyzeInterestRateEnvironment : Json :=
  let rateFactors := Json.obj [
    ("policy_rates", Json.obj [
      ("current_trend", Json.str "stable"),
      ("impact", Json.str "Higher rates can reduce demand for risk assets"),
      ("explanation", Json.str "When interest rates rise, traditional savings become more attractive, potentially reducing the relative appeal of cryptocurrencies as alternative investments.")]),
    ("real_rates", Json.obj [
      ("status", Json.str "negative_to_neutral"),
      ("impact", Json.str "Negative real rates historically support crypto"),
      ("explanation", Json.str "When inflation exceeds nominal interest rates, investors may seek assets like cryptocurrencies that can potentially preserve purchasing power.")]),
    ("yield_curve", Json.obj [
      ("shape", Json.str "normal"),
      ("impact", Json.str "Yield curve shape indicates economic expectations"),
      ("explanation", Json.str "The yield curve reflects market expectations about future economic conditions and can influence risk appetite across all asset classes.")])]
  Json.obj [
    ("factors", rateFactors),
    ("implications", macroAssessRateImplications rateFactors),
    ("trend", Json.str "monitoring"),
    ("educational_context", Json.arr [
      Json.str "Interest rates are a fundamental driver of asset allocation decisions",
      Json.str "Cryptocurrencies often behave like high-duration assets in rate environments",
      Json.str "Rate expectations can be more important than current rates"])]

/-- `MacroAnalyzer._assess_overall_sentiment`. -/
def macroAssessOverallSentiment (_indicators : Json) : Json :=
  Json.obj [
    ("status", Json.str "neutral"),
    ("confidence", Json.str "moderate"),
    ("factors", Json.str "Mixed signals across different indicators")]

/-- `MacroAnalyzer._analyze_global_risk_sentiment`. -/
def macroAnalyzeGlobalRiskSentiment : Json :=
  let sentimentIndicators := Json.obj [
    ("equity_markets", Json.obj [
      ("trend", Json.str "cautious"),
      ("impact", Json.str "Equity performance often correlates with crypto"),
      ("explanation", Json.str "Cryptocurrencies, particularly Bitcoin, have shown increasing correlation with broader risk assets, especially during periods of market stress.")]),
    ("volatility_indices", Json.obj [
      ("level", Json.str "moderate"),
      ("impact", Json.str "Higher volatility indicates increased fear"),
      ("explanation", Json.str "Traditional volatility indices like the VIX can serve as proxies for overall market risk appetite, which often extends to cryptocurrency markets.")]),
    ("safe_haven_demand", Json.obj [
      ("status", Json.str "balanced"),
      ("impact", Json.str "Safe haven demand affects risk asset flows"),
      ("explanation", Json.str "During periods of heightened uncertainty, investors may rotate between safe havens and risk assets, impacting cryptocurrency demand patterns.")])]
  Json.obj [
    ("indicators", sentimentIndicators),
    ("overall_sentiment", macroAssessOverallSentiment sentimentIndicators),
    ("risk_appetite", Json.str "moderate"),
    ("key_insights", Json.arr [
      Json.str "Risk sentiment is a major driver of short-term crypto price movements",
      Json.str "Cryptocurrency's role as risk asset vs safe haven continues to evolve",
      Json.str "Global risk flows increasingly interconnected across asset classes"])]

/-- `MacroAnalyzer._assess_regulatory_outlook`. -/
def macroAssessRegulatoryOutlook (_factors : Json) : Json :=
  Json.obj [
    ("trend", Json.str "neutral"),
    ("certainty", Json.str "increasing"),
    ("key_developments", Json.str "Continued framework development")]

/-- `MacroAnalyzer._analyze_regulatory_environment`. -/
def macroAnalyzeRegulatoryEnvironment : Json :=
  let regulatoryFactors := Json.obj [
    ("major_jurisdictions", Json.obj [
      ("trend", Json.str "clarification_increasing"),
      ("impact", Json.str "Regulatory clarity can support institutional adoption"),
      ("explanation", Json.str "Clear regulatory frameworks reduce uncertainty for institutional investors and can support market development.")]),
    ("compliance_requirements", Json.obj [
      ("status", Json.str "evolving"),
      ("impact", Json.str "Compliance costs affect market participants"),
      ("explanation", Json.str "Increasing compliance requirements can impact operational costs for crypto businesses and influence market structure.")]),
    ("international_coordination", Json.obj [
      ("level", Json.str "improving"),
      ("impact", Json.str "Coordinated approaches reduce regulatory arbitrage"),
      ("explanation", Json.str "Better international coordination on crypto regulation can create more consistent global market conditions.")])]
  Json.obj [
    ("factors", regulatoryFactors),
    ("outlook", macroAssessRegulatoryOutlook regulatoryFactors),
    ("focus_areas", Json.arr [
      Json.str "Institutional adoption frameworks",
      Json.str "Consumer protection measures",
      Json.str "Market structure regulations",
      Json.str "Cross-border coordination"])]

/-- `MacroAnalyzer._generate_macro_insights` (dict subscripts can raise). -/
def generateMacroInsights (liquidity rates sentiment regulatory : Json) :
    Except String (List String) := do
  let liquidityStatus ← jidx liquidity "overall_status"
  let insights1 : List String :=
    if liquidityStatus.eqStr "tight" then
      ["Tight liquidity conditions may constrain crypto market growth"]
    else if liquidityStatus.eqStr "ample" then
      ["Supportive liquidity environment could benefit crypto markets"]
    else []
  let rateOverall ← jidx (← jidx rates "implications") "overall"
  let insights2 : List String :=
    if rateOverall.eqStr "challenging" then
      ["Current interest rate environment presents headwinds for risk assets"]
    else if rateOverall.eqStr "supportive" then
      ["Interest rate conditions appear supportive for crypto markets"]
    else []
  let sentimentStatus ← jidx (← jidx sentiment "overall_sentiment") "status"
  let insights3 : List String :=
    if sentimentStatus.eqStr "risk_off" then
      ["Risk-off sentiment may pressure crypto prices in short term"]
    else if sentimentStatus.eqStr "risk_on" then
      ["Risk-on environment could support crypto market performance"]
    else []
  let regulatoryTrend ← jidx (← jidx regulatory "outlook") "trend"
  let insights4 : List String :=
    if regulatoryTrend.eqStr "positive" then
      ["Evolving regulatory clarity may support institutional adoption"]
    else []
  pure (insights1 ++ insights2 ++ insights3 ++ insights4)

/-- `MacroAnalyzer._assess_macro_conditions`. -/
def assessMacroConditions (liquidity rates sentiment : Json) :
    Except String Json := do
  let liquidityStatus ← jidx liquidity "overall_status"
  let drivers1 : List Json :=
    if liquidityStatus.eqStr "tight" then [Json.str "Liquidity constraints"] else []
  let rateOverall ← jidx (← jidx rates "implications") "overall"
  let drivers2 : List Json :=
    if rateOverall.eqStr "challenging" then [Json.str "Unfavorable rate environment"] else []
  let sentimentStatus ← jidx (← jidx sentiment "overall_sentiment") "status"
  let drivers3 : List Json :=
    if sentimentStatus.eqStr "risk_off" then [Json.str "Risk aversion"] else []
  let keyDrivers := drivers1 ++ drivers2 ++ drivers3
  let overall : String :=
    if keyDrivers.length ≥ 2 then "challenging"
    else if keyDrivers.length = 1 then "mixed"
    else "supportive"
  pure (Json.obj [
    ("overall", Json.str overall),
    ("key_drivers", Json.arr keyDrivers),
    ("outlook", Json.str "uncertain")])

/-- `MacroAnalyzer._get_educational_notes`. -/
def macroEducationalNotes : Json :=
  Json.arr [
    Json.str "Macroeconomic factors provide context for cryptocurrency market movements",
    Json.str "Traditional market relationships with crypto are evolving over time",
    Json.str "Global liquidity cycles often correlate with crypto market cycles",
    Json.str "Interest rate environments influence relative attractiveness of different assets",
    Json.str "Regulatory development is a key factor in long-term market maturation"]

/-- `MacroAnalyzer._error_response`. -/
def macroErrorResponse (errorMessage : String) : Json :=
  Json.obj [
    ("error", Json.bool true),
    ("message", Json.str ("Macro analysis failed: " ++ errorMessage)),
    ("educational_notes", macroEducationalNotes)]

/-- `MacroAnalyzer.analyze` (the query and asset list are received but never
used; the timestamp is the nondeterministic `_get_timestamp()` value). -/
def macroAnalyze (_query : String) (_assets : List String) (ts : String) : Json :=
  let body : Except String Json := do
    let liquidityAnalysis := macroAnalyzeLiquidityConditions
    let interestRateAnalysis := macroAnalyzeInterestRateEnvironment
    let riskSentimentAnalysis := macroAnalyzeGlobalRiskSentiment
    let regulatoryAnalysis := macroAnalyzeRegulatoryEnvironment
    let insights ← generateMacroInsights liquidityAnalysis interestRateAnalysis
      riskSentimentAnalysis regulatoryAnalysis
    let macroConditions ← assessMacroConditions liquidityAnalysis
      interestRateAnalysis riskSentimentAnalysis
    pure (Json.obj [
      ("analysis_type", Json.str "macroeconomic"),
      ("liquidity_conditions", liquidityAnalysis),
      ("interest_rate_environment", interestRateAnalysis),
      ("global_risk_sentiment", riskSentimentAnalysis),
      ("regulatory_environment", regulatoryAnalysis),
      ("overall_conditions", macroConditions),
      ("insights", Json.arr (insights.map Json.str)),
      ("educational_notes", macroEducationalNotes),
      ("timestamp", Json.str ts)])
  match body with
  | Except.ok r => r
  | Except.error e => macroErrorResponse e

/-! ## src/core/sentiment.py — SentimentAnalyzer -/

/-- `SentimentAnalyzer._calculate_fear_greed_score`. -/
def calculateFearGreedScore (_components : Json) : Int :=
  50

/-- `SentimentAnalyzer._interpret_fear_greed_score`. -/
def interpretFearGreedScore (score : Int) : String :=
  if score ≤ 25 then "extreme_fear"
  else if score ≤ 45 then "fear"
  else if score ≤ 55 then "neutral"
  else if score ≤ 75 then "greed"
  else "extreme_greed"

/-- `SentimentAnalyzer._get_fear_greed_context`. -/
def getFearGreedContext : String :=
  "Current sentiment levels appear moderate compared to historical extremes"

/-- `SentimentAnalyzer._analyze_fear_greed_index`. -/
def analyzeFearGreedIndex : Json :=
  let fearGreedComponents := Json.obj [
    ("volatility", Json.obj [
      ("current", Json.str "moderate"),
      ("interpretation", Json.str "Market volatility compared to historical averages"),
      ("explanation", Json.str "Higher volatility often indicates fear, while lower volatility can suggest complacency or greed.")]),
    ("market_momentum", Json.obj [
      ("current", Json.str "neutral"),
      ("interpretation", Json.str "Price momentum and volume trends"),
      ("explanation", Json.str "Strong upward momentum can indicate greed, while sharp declines often signal fear.")]),
    ("social_media", Json.obj [
      ("current", Json.str "mixed"),
      ("interpretation", Json.str "Social media sentiment and posting frequency"),
      ("explanation", Json.str "High posting volume with positive sentiment may indicate greed, while negative sentiment suggests fear.")]),
    ("dominance", Json.obj [
      ("current", Json.str "stable"),
      ("interpretation", Json.str "Bitcoin's market dominance"),
      ("explanation", Json.str "Rising Bitcoin dominance can indicate fear (flight to safety), while falling dominance may suggest greed (risk appetite).")]),
    ("trends", Json.obj [
      ("current", Json.str "neutral"),
      ("interpretation", Json.str "Google Trends search volume"),
      ("explanation", Json.str "Increased search interest often correlates with market enthusiasm or panic.")])]
  let overallScore := calculateFearGreedScore fearGreedComponents
  let sentimentLevel := interpretFearGreedScore overallScore
  Json.obj [
    ("components", fearGreedComponents),
    ("overall_score", Json.num overallScore),
    ("sentiment_level", Json.str sentimentLevel),
    ("historical_context", Json.str getFearGreedContext),
    ("educational_notes", Json.arr [
      Json.str "Fear & Greed Index is a contrarian indicator",
      Json.str "Extreme readings often precede market reversals",
      Json.str "The index combines multiple data points for a comprehensive view",
      Json.str "It's most useful when analyzed over time rather than as a snapshot"])]

/-- `SentimentAnalyzer._generate_social_insights`. -/
def generateSocialInsights (_platforms : Json) : Json :=
  Json.arr [
    Json.str "Social media sentiment provides real-time market pulse",
    Json.str "Platform-specific differences reflect different user demographics",
    Json.str "Volume changes often precede sentiment shifts",
    Json.str "Social media can amplify both rational and irrational behaviors"]

/-- `SentimentAnalyzer._analyze_social_media_sentiment`. -/
def analyzeSocialMediaSentiment : Json :=
  let socialPlatforms := Json.obj [
    ("twitter", Json.obj [
      ("sentiment_score", Json.str "neutral"),
      ("volume", Json.str "moderate"),
      ("key_themes", Json.arr [Json.str "market discussion", Json.str "technical analysis", Json.str "regulation"]),
      ("explanation", Json.str "Twitter sentiment reflects real-time market participant reactions and can indicate prevailing mood.")]),
    ("reddit", Json.obj [
      ("sentiment_score", Json.str "cautiously_optimistic"),
      ("volume", Json.str "moderate"),
      ("key_themes", Json.arr [Json.str "long-term perspective", Json.str "technology", Json.str "adoption"]),
      ("explanation", Json.str "Reddit discussions often provide longer-term perspective and can indicate retail investor sentiment.")]),
    ("telegram_discord", Json.obj [
      ("sentiment_score", Json.str "neutral"),
      ("volume", Json.str "low_to_moderate"),
      ("key_themes", Json.arr [Json.str "project updates", Json.str "community", Json.str "education"]),
      ("explanation", Json.str "Community platforms can provide insights into project-specific sentiment and engagement.")])]
  Json.obj [
    ("platforms", socialPlatforms),
    ("overall_social_sentiment", Json.str "neutral"),
    ("volume_trends", Json.str "stable"),
    ("key_insights", generateSocialInsights socialPlatforms),
    ("methodology", Json.obj [
      ("approach", Json.str "Educational analysis of sentiment patterns"),
      ("limitations", Json.str "Social media sentiment can be noisy and manipulated"),
      ("best_use", Json.str "As one component of broader sentiment analysis")])]

/-- `SentimentAnalyzer._analyze_media_bias`. -/
def analyzeMediaBias (_categories : Json) : Json :=
  Json.obj [
    ("overall_bias", Json.str "neutral"),
    ("bias_diversity", Json.str "high"),
    ("key_observations", Json.arr [
      Json.str "Different media types show varying perspectives",
      Json.str "Coverage tends to be more balanced during stable periods",
      Json.str "Crisis periods often see more polarized coverage"])]

/-- `SentimentAnalyzer._analyze_news_sentiment`. -/
def analyzeNewsSentiment : Json :=
  let newsCategories := Json.obj [
    ("mainstream_media", Json.obj [
      ("sentiment", Json.str "cautious"),
      ("coverage_tone", Json.str "balanced"),
      ("key_topics", Json.arr [Json.str "regulation", Json.str "institutional adoption", Json.str "market volatility"]),
      ("explanation", Json.str "Mainstream media coverage often reflects broader market sentiment and can influence public perception.")]),
    ("crypto_media", Json.obj [
      ("sentiment", Json.str "optimistic"),
      ("coverage_tone", Json.str "bullish_on_technology"),
      ("key_topics", Json.arr [Json.str "technology development", Json.str "network upgrades", Json.str "ecosystem growth"]),
      ("explanation", Json.str "Crypto-focused media tends to be more optimistic about long-term prospects while acknowledging short-term challenges.")]),
    ("financial_media", Json.obj [
      ("sentiment", Json.str "skeptical"),
      ("coverage_tone", Json.str "risk_focused"),
      ("key_topics", Json.arr [Json.str "risk management", Json.str "volatility", Json.str "regulatory concerns"]),
      ("explanation", Json.str "Traditional financial media often emphasizes risks and volatility, reflecting institutional perspectives.")])]
  Json.obj [
    ("categories", newsCategories),
    ("media_bias_analysis", analyzeMediaBias newsCategories),
    ("coverage_volume", Json.str "moderate"),
    ("narrative_themes", Json.arr [
      Json.str "Regulatory development continues to evolve",
      Json.str "Institutional adoption remains a key theme",
      Json.str "Technology development progresses despite market cycles",
      Json.str "Market volatility attracts media attention"])]

/-- `SentimentAnalyzer._assess_momentum_conditions`. -/
def assessMomentumConditions (_indicators : Json) : Json :=
  Json.obj [
    ("status", Json.str "neutral"),
    ("strength", Json.str "moderate"),
    ("sustainability", Json.str "uncertain"),
    ("key_factors", Json.arr [
      Json.str "Price momentum shows mixed signals across timeframes",
      Json.str "Volume momentum suggests some weakening",
      Json.str "Relative strength remains positive vs traditional assets"])]

/-- `SentimentAnalyzer._analyze_market_momentum`. -/
def analyzeMarketMomentum : Json :=
  let momentumIndicators := Json.obj [
    ("price_momentum", Json.obj [
      ("short_term", Json.str "neutral"),
      ("medium_term", Json.str "neutral"),
      ("long_term", Json.str "slightly_bullish"),
      ("explanation", Json.str "Price momentum across different timeframes can indicate market strength or weakness.")]),
    ("volume_momentum", Json.obj [
      ("trend", Json.str "declining"),
      ("significance", Json.str "Lower volume may indicate reduced conviction"),
      ("explanation", Json.str "Volume analysis helps confirm price trends and can signal potential reversals.")]),
    ("relative_strength", Json.obj [
      ("vs_traditional_assets", Json.str "outperforming"),
      ("within_crypto", Json.str "neutral"),
      ("explanation", Json.str "Relative strength analysis shows how crypto performs compared to other asset classes.")]),
    ("breadth", Json.obj [
      ("market_breadth", Json.str "mixed"),
      ("participation", Json.str "moderate"),
      ("explanation", Json.str "Market breadth indicates how widespread participation is across different cryptocurrencies.")])]
  Json.obj [
    ("indicators", momentumIndicators),
    ("overall_momentum", assessMomentumConditions momentumIndicators),
    ("trend_strength", Json.str "moderate"),
    ("educational_notes", Json.arr [
      Json.str "Momentum indicators work best when used together",
      Json.str "Divergence between price and volume momentum can signal changes",
      Json.str "Relative strength helps identify sector rotation",
      Json.str "Market breadth indicates overall market health"])]

/-- `SentimentAnalyzer._generate_sentiment_insights` (dict subscripts can
raise; the `and` in the news condition short-circuits). -/
def generateSentimentInsights (fearGreed social news momentum : Json) :
    Except String (List String) := do
  let fearGreedLevel ← jidx fearGreed "sentiment_level"
  let insights1 : List String :=
    if fearGreedLevel.eqStr "extreme_fear" then
      ["Extreme fear may indicate oversold conditions, but markets can remain irrational longer than expected"]
    else if fearGreedLevel.eqStr "extreme_greed" then
      ["Extreme greed often coincides with market tops, though timing reversals remains challenging"]
    else []
  let socialSentiment ← jidx social "overall_social_sentiment"
  let insights2 : List String :=
    if socialSentiment.eqStr "overly_optimistic" then
      ["High social media optimism may suggest complacency among market participants"]
    else if socialSentiment.eqStr "excessively_fearful" then
      ["Widespread fear on social media may indicate panic selling could be near exhaustion"]
    else []
  let coverageVolume ← jidx news "coverage_volume"
  let insights3 ←
    if coverageVolume.eqStr "high" then do
      let bias ← jidx (← jidx news "media_bias_analysis") "overall_bias"
      pure (if bias.eqStr "negative" then
        ["High negative media coverage often coincides with market bottoms, though this is not guaranteed"]
      else ([] : List String))
    else pure ([] : List String)
  let momentumStatus ← jidx (← jidx momentum "overall_momentum") "status"
  let insights4 : List String :=
    if momentumStatus.eqStr "weakening" then
      ["Weakening momentum suggests the current trend may be losing strength"]
    else if momentumStatus.eqStr "strengthening" then
      ["Strengthening momentum indicates the current trend has underlying support"]
    else []
  pure (insights1 ++ insights2 ++ insights3 ++ insights4)

/-- `SentimentAnalyzer._identify_sentiment_drivers`. -/
def identifySentimentDrivers (components : List (String × Json)) : List Json :=
  (components.filter (fun kv => ¬ kv.2.eqStr "neutral")).map
    (fun kv => Json.str (pyTitle (kv.1.replace "_" " ") ++ ": " ++ kv.2.asStr))

/-- `SentimentAnalyzer._identify_contrarian_signals`. -/
def identifyContrarianSignals (components : List (String × Json)) : List Json :=
  if ((jlookup components "fear_greed").getD Json.null).memStr
      ["extreme_fear", "extreme_greed"] then
    [Json.str "Extreme Fear & Greed reading may present contrarian opportunity"]
  else []

/-- `SentimentAnalyzer._assess_overall_sentiment`. -/
def assessOverallSentiment (fearGreed social news momentum : Json) :
    Except String Json := do
  let fearGreedLevel ← jidx fearGreed "sentiment_level"
  let socialSentiment ← jidx social "overall_social_sentiment"
  let newsBias ← jidx (← jidx news "media_bias_analysis") "overall_bias"
  let momentumStatus ← jidx (← jidx momentum "overall_momentum") "status"
  let sentimentComponents : List (String × Json) := [
    ("fear_greed", fearGreedLevel),
    ("social_media", socialSentiment),
    ("news_sentiment", newsBias),
    ("momentum", momentumStatus)]
  let positiveSignals := (sentimentComponents.map Prod.snd).countP
    (fun v => v.memStr ["extreme_greed", "optimistic", "bullish", "strengthening"])
  let negativeSignals := (sentimentComponents.map Prod.snd).countP
    (fun v => v.memStr ["extreme_fear", "pessimistic", "bearish", "weakening"])
  let overall : String :=
    if positiveSignals > negativeSignals then "positive"
    else if negativeSignals > positiveSignals then "negative"
    else "neutral"
  pure (Json.obj [
    ("overall_sentiment", Json.str overall),
    ("components", Json.obj sentimentComponents),
    ("confidence", Json.str "moderate"),
    ("key_drivers", Json.arr (identifySentimentDrivers sentimentComponents)),
    ("contrarian_signals", Json.arr (identifyContrarianSignals sentimentComponents))])

/-- `SentimentAnalyzer._get_educational_context`. -/
def sentimentEducationalContext : Json :=
  Json.arr [
    Json.str "Sentiment analysis helps understand market psychology",
    Json.str "Extreme sentiment readings often coincide with turning points",
    Json.str "Sentiment is most useful when combined with other analysis types",
    Json.str "Social media sentiment can be manipulated and should be verified",
    Json.str "News sentiment reflects media priorities as much as market reality",
    Json.str "Momentum indicators work best when confirming other signals"]

/-- `SentimentAnalyzer._error_response`. -/
def sentimentErrorResponse (errorMessage : String) : Json :=
  Json.obj [
    ("error", Json.bool true),
    ("message", Json.str ("Sentiment analysis failed: " ++ errorMessage)),
    ("educational_context", sentimentEducationalContext)]

/-- `SentimentAnalyzer.analyze` (query and assets unused; `ts` is the
nondeterministic timestamp). -/
def sentimentAnalyze (_query : String) (_assets : List String) (ts : String) : Json :=
  let body : Except String Json := do
    let fearGreedAnalysis := analyzeFearGreedIndex
    let socialSentiment := analyzeSocialMediaSentiment
    let newsSentiment := analyzeNewsSentiment
    let momentumAnalysis := analyzeMarketMomentum
    let insights ← generateSentimentInsights fearGreedAnalysis socialSentiment
      newsSentiment momentumAnalysis
    let overallSentiment ← assessOverallSentiment fearGreedAnalysis socialSentiment
      newsSentiment momentumAnalysis
    pure (Json.obj [
      ("analysis_type", Json.str "sentiment"),
      ("fear_greed_index", fearGreedAnalysis),
      ("social_media_sentiment", socialSentiment),
      ("news_sentiment", newsSentiment),
      ("market_momentum", momentumAnalysis),
      ("overall_sentiment", overallSentiment),
      ("insights", Json.arr (insights.map Json.str)),
      ("educational_context", sentimentEducationalContext),
      ("timestamp", Json.str ts)])
  match body with
  | Except.ok r => r
  | Except.error e => sentimentErrorResponse e

/-! ## src/core/onchain.py — OnChainAnalyzer -/

/-- `OnChainAnalyzer._assess_activity_trends`. -/
def assessActivityTrends (_metrics : Json) : Json :=
  Json.obj [
    ("trend", Json.str "stable"),
    ("strength", Json.str "moderate"),
    ("sustainability", Json.str "likely_sustainable")]

/-- `OnChainAnalyzer._identify_growth_indicators`. -/
def identifyGrowthIndicators (_metrics : Json) : Json :=
  Json.arr [
    Json.str "New address creation shows user acquisition",
    Json.str "DApp activity demonstrates utility beyond speculation",
    Json.str "Network utilization indicates demand for services"]

/-- `OnChainAnalyzer._analyze_usage_patterns`. -/
def analyzeUsagePatterns (_metrics : Json) : Json :=
  Json.obj [
    ("primary_usage", Json.str "transfers_and_dapps"),
    ("user_engagement", Json.str "moderate"),
    ("retention_indicators", Json.str "positive")]

/-- `OnChainAnalyzer._analyze_network_activity`. -/
def analyzeNetworkActivity : Json :=
  let activityMetrics := Json.obj [
    ("active_addresses", Json.obj [
      ("current_trend", Json.str "stable"),
      ("30_day_change", Json.str "neutral"),
      ("significance", Json.str "Active addresses indicate network usage and adoption"),
      ("explanation", Json.str "The number of unique active addresses shows how many users are actively using the network, serving as a proxy for adoption and engagement.")]),
    ("new_addresses", Json.obj [
      ("current_trend", Json.str "moderately_increasing"),
      ("significance", Json.str "New address creation indicates user growth"),
      ("explanation", Json.str "Growth in new addresses suggests ongoing user acquisition and network expansion, though some addresses may belong to existing users.")]),
    ("network_utilization", Json.obj [
      ("current_level", Json.str "moderate"),
      ("significance", Json.str "Network utilization shows demand for block space"),
      ("explanation", Json.str "High network utilization can indicate strong demand for transactions, potentially leading to higher fees during peak periods.")]),
    ("dapp_activity", Json.obj [
      ("trend", Json.str "growing"),
      ("significance", Json.str "DeFi and application usage drives network demand"),
      ("explanation", Json.str "Decentralized application activity generates transactions and demonstrates practical utility of the network.")])]
  Json.obj [
    ("metrics", activityMetrics),
    ("overall_activity", assessActivityTrends activityMetrics),
    ("growth_indicators", identifyGrowthIndicators activityMetrics),
    ("usage_patterns", analyzeUsagePatterns activityMetrics),
    ("educational_notes", Json.arr [
      Json.str "Network activity metrics provide insights into real usage vs speculation",
      Json.str "Active addresses can be influenced by market conditions and user behavior",
      Json.str "Network utilization affects transaction costs and user experience",
      Json.str "DApp activity demonstrates practical utility beyond simple transfers"])]

/-- `OnChainAnalyzer._analyze_holder_patterns`. -/
def analyzeHolderPatterns (_metrics : Json) : Json :=
  Json.obj [
    ("long_term_trend", Json.str "accumulation"),
    ("distribution_pattern", Json.str "stable"),
    ("overall_sentiment", Json.str "cautiously_optimistic")]

/-- `OnChainAnalyzer._assess_market_maturity` (holder variant). -/
def onchainAssessMarketMaturity (_metrics : Json) : String :=
  "maturing"

/-- `OnChainAnalyzer._identify_holder_risks`. -/
def identifyHolderRisks (_metrics : Json) : Json :=
  Json.arr [
    Json.str "Concentration risk if whale holdings increase",
    Json.str "Liquidity risk if long-term holders start distributing",
    Json.str "Volatility risk if short-term holders dominate"]

/-- `OnChainAnalyzer._analyze_holder_behavior`. -/
def analyzeHolderBehavior : Json :=
  let holderMetrics := Json.obj [
    ("holder_distribution", Json.obj [
      ("retail_holders", Json.str "increasing"),
      ("whale_concentration", Json.str "stable"),
      ("institutional_holdings", Json.str "growing"),
      ("explanation", Json.str "Holder distribution shows how tokens are distributed across different holder types, which can indicate market maturity and stability.")]),
    ("holding_periods", Json.obj [
      ("short_term", Json.str "decreasing"),
      ("medium_term", Json.str "stable"),
      ("long_term", Json.str "increasing"),
      ("explanation", Json.str "Holding period analysis reveals investor sentiment and conviction levels across different time horizons.")]),
    ("profit_loss_status", Json.obj [
      ("in_profit", Json.str "moderate_percentage"),
      ("in_loss", Json.str "moderate_percentage"),
      ("break_even", Json.str "small_percentage"),
      ("explanation", Json.str "The percentage of holders in profit or loss can influence selling pressure and market dynamics.")]),
    ("accumulation_distribution", Json.obj [
      ("current_phase", Json.str "accumulation"),
      ("accumulation_zones", Json.str "identified"),
      ("distribution_zones", Json.str "minimal"),
      ("explanation", Json.str "Accumulation and distribution patterns show how different holder groups are positioning themselves over time.")])]
  Json.obj [
    ("metrics", holderMetrics),
    ("behavioral_insights", analyzeHolderPatterns holderMetrics),
    ("market_maturity", Json.str (onchainAssessMarketMaturity holderMetrics)),
    ("risk_indicators", identifyHolderRisks holderMetrics),
    ("educational_context", Json.arr [
      Json.str "Holder behavior provides insights into market psychology",
      Json.str "Distribution patterns can indicate market structure changes",
      Json.str "Long-term holder accumulation often signals conviction",
      Json.str "Whale activity can significantly impact market dynamics"])]

/-- `OnChainAnalyzer._analyze_transaction_patterns`. -/
def analyzeTransactionPatterns (_metrics : Json) : Json :=
  Json.obj [
    ("volume_trend", Json.str "stable"),
    ("efficiency_trend", Json.str "improving"),
    ("usage_evolution", Json.str "maturing")]

/-- `OnChainAnalyzer._analyze_efficiency` — note: no `fee_pressure` key. -/
def analyzeEfficiency (_metrics : Json) : Json :=
  Json.obj [
    ("fee_efficiency", Json.str "good"),
    ("throughput_utilization", Json.str "moderate"),
    ("cost_effectiveness", Json.str "reasonable")]

/-- `OnChainAnalyzer._assess_economic_activity`. -/
def assessEconomicActivity (_metrics : Json) : Json :=
  Json.obj [
    ("status", Json.str "moderate"),
    ("trend", Json.str "stable"),
    ("quality", Json.str "improving")]

/-- `OnChainAnalyzer._analyze_transaction_metrics`. -/
def analyzeTransactionMetrics : Json :=
  let transactionMetrics := Json.obj [
    ("transaction_volume", Json.obj [
      ("daily_volume", Json.str "stable"),
      ("volume_trend", Json.str "sideways"),
      ("value_transferred", Json.str "moderate"),
      ("explanation", Json.str "Transaction volume measures the total value being moved on-chain, reflecting economic activity and network utilization.")]),
    ("transaction_count", Json.obj [
      ("daily_count", Json.str "stable"),
      ("count_trend", Json.str "slightly_increasing"),
      ("average_transaction_size", Json.str "decreasing"),
      ("explanation", Json.str "Transaction count shows network usage frequency, while average size can indicate usage patterns and efficiency.")]),
    ("transaction_fees", Json.obj [
      ("average_fee", Json.str "moderate"),
      ("fee_trend", Json.str "stable"),
      ("fee_pressure", Json.str "low"),
      ("explanation", Json.str "Transaction fees reflect network demand and can influence user behavior, especially for smaller transactions.")]),
    ("transaction_types", Json.obj [
      ("simple_transfers", Json.str "majority"),
      ("smart_contract_interactions", Json.str "growing"),
      ("exchange_transactions", Json.str "stable"),
      ("explanation", Json.str "Transaction type analysis shows how the network is being used and what activities drive demand.")])]
  Json.obj [
    ("metrics", transactionMetrics),
    ("transaction_insights", analyzeTransactionPatterns transactionMetrics),
    ("efficiency_metrics", analyzeEfficiency transactionMetrics),
    ("economic_activity", assessEconomicActivity transactionMetrics),
    ("educational_notes", Json.arr [
      Json.str "Transaction metrics provide insights into real economic activity",
      Json.str "Fee analysis helps understand network congestion and user costs",
      Json.str "Transaction types reveal how the network is being utilized",
      Json.str "Volume patterns can indicate market sentiment and activity"])]

/-- `OnChainAnalyzer._assess_network_vitality`. -/
def assessNetworkVitality (_metrics : Json) : Json :=
  Json.obj [
    ("status", Json.str "healthy"),
    ("strength", Json.str "strong"),
    ("resilience", Json.str "good")]

/-- `OnChainAnalyzer._analyze_security_posture`. -/
def analyzeSecurityPosture (_metrics : Json) : Json :=
  Json.obj [
    ("overall_security", Json.str "strong"),
    ("attack_resistance", Json.str "high"),
    ("decentralization", Json.str "adequate")]

/-- `OnChainAnalyzer._assess_sustainability`. -/
def assessSustainability (_metrics : Json) : Json :=
  Json.arr [
    Json.str "Active development ensures continuous improvement",
    Json.str "Diverse ecosystem reduces single points of failure",
    Json.str "Healthy economic incentives support network security"]

/-- `OnChainAnalyzer._analyze_network_health`. -/
def analyzeNetworkHealth : Json :=
  let healthMetrics := Json.obj [
    ("network_security", Json.obj [
      ("hash_rate", Json.str "stable"),
      ("staking_participation", Json.str "healthy"),
      ("decentralization_level", Json.str "good"),
      ("explanation", Json.str "Network security metrics show how robust and resilient the network is against attacks and centralization.")]),
    ("network_performance", Json.obj [
      ("block_time_consistency", Json.str "stable"),
      ("confirmation_time", Json.str "normal"),
      ("network_latency", Json.str "acceptable"),
      ("explanation", Json.str "Performance metrics indicate how well the network is functioning and providing reliable service to users.")]),
    ("development_activity", Json.obj [
      ("developer_contribution", Json.str "active"),
      ("code_updates", Json.str "regular"),
      ("ecosystem_growth", Json.str "expanding"),
      ("explanation", Json.str "Development activity shows the long-term viability and innovation capacity of the network.")]),
    ("ecosystem_metrics", Json.obj [
      ("node_count", Json.str "stable"),
      ("client_diversity", Json.str "good"),
      ("geographic_distribution", Json.str "diverse"),
      ("explanation", Json.str "Ecosystem metrics indicate network decentralization and resilience against single points of failure.")])]
  Json.obj [
    ("metrics", healthMetrics),
    ("overall_health", assessNetworkVitality healthMetrics),
    ("security_analysis", analyzeSecurityPosture healthMetrics),
    ("sustainability_factors", assessSustainability healthMetrics),
    ("educational_insights", Json.arr [
      Json.str "Network health is fundamental to long-term viability",
      Json.str "Security metrics ensure network integrity and user trust",
      Json.str "Development activity indicates ongoing innovation and maintenance",
      Json.str "Ecosystem diversity contributes to network resilience"])]

/-- `OnChainAnalyzer._generate_onchain_insights`: the `elif` on
`transactions["efficiency_metrics"]["fee_pressure"]` reads a key that
`_analyze_efficiency` never produces, so on the data this class builds it
raises `KeyError('fee_pressure')`. -/
def generateOnchainInsights (activity holders transactions health : Json) :
    Except String (List String) := do
  let activityTrend ← jidx (← jidx activity "overall_activity") "trend"
  let insights1 : List String :=
    if activityTrend.eqStr "growing" then
      ["Growing network activity suggests increasing adoption and utility"]
    else if activityTrend.eqStr "declining" then
      ["Declining activity may indicate reduced usage or market fatigue"]
    else []
  let longTermTrend ← jidx (← jidx holders "behavioral_insights") "long_term_trend"
  let insights2 ←
    if longTermTrend.eqStr "accumulation" then
      pure ["Long-term holder accumulation suggests conviction in network fundamentals"]
    else do
      let distributionPattern ←
        jidx (← jidx holders "behavioral_insights") "distribution_pattern"
      pure (if distributionPattern.eqStr "distribution" then
        ["Distribution from long-term holders may indicate profit-taking or reduced conviction"]
      else ([] : List String))
  let economicTrend ← jidx (← jidx transactions "economic_activity") "trend"
  let insights3 ←
    if economicTrend.eqStr "increasing" then
      pure ["Rising transaction volume indicates growing economic activity on-chain"]
    else do
      let feePressure ← jidx (← jidx transactions "efficiency_metrics") "fee_pressure"
      pure (if feePressure.eqStr "high" then
        ["High fee pressure may constrain smaller transactions and affect user experience"]
      else ([] : List String))
  let healthStatus ← jidx (← jidx health "overall_health") "status"
  let insights4 : List String :=
    if healthStatus.eqStr "strong" then
      ["Strong network health provides foundation for long-term growth"]
    else if healthStatus.eqStr "concerning" then
      ["Network health concerns may require attention for sustainable development"]
    else []
  pure (insights1 ++ insights2 ++ insights3 ++ insights4)

/-- `OnChainAnalyzer._identify_network_strengths`. -/
def identifyNetworkStrengths (factors : List (String × Json)) : List Json :=
  (factors.filter (fun kv => kv.2.memStr ["growing", "accumulation", "healthy", "strong"])).map
    (fun kv => Json.str (pyTitle (kv.1.replace "_" " ") ++ ": " ++ kv.2.asStr))

/-- `OnChainAnalyzer._identify_network_concerns`. -/
def identifyNetworkConcerns (factors : List (String × Json)) : List Json :=
  (factors.filter (fun kv => kv.2.memStr ["declining", "distribution", "unhealthy", "weak"])).map
    (fun kv => Json.str (pyTitle (kv.1.replace "_" " ") ++ ": " ++ kv.2.asStr))

/-- `OnChainAnalyzer._assess_network_conditions`. -/
def assessNetworkConditions (activity holders transactions health : Json) :
    Except String Json := do
  let activityTrend ← jidx (← jidx activity "overall_activity") "trend"
  let holderSentiment ← jidx (← jidx holders "behavioral_insights") "overall_sentiment"
  let transactionHealth ← jidx (← jidx transactions "economic_activity") "status"
  let networkVitality ← jidx (← jidx health "overall_health") "status"
  let conditionFactors : List (String × Json) := [
    ("activity_trend", activityTrend),
    ("holder_sentiment", holderSentiment),
    ("transaction_health", transactionHealth),
    ("network_vitality", networkVitality)]
  let positiveFactors := (conditionFactors.map Prod.snd).countP
    (fun v => v.memStr ["growing", "accumulation", "healthy", "strong"])
  let negativeFactors := (conditionFactors.map Prod.snd).countP
    (fun v => v.memStr ["declining", "distribution", "unhealthy", "weak"])
  let overallStatus : String :=
    if positiveFactors > negativeFactors then "positive"
    else if negativeFactors > positiveFactors then "negative"
    else "neutral"
  pure (Json.obj [
    ("overall_status", Json.str overallStatus),
    ("key_factors", Json.obj conditionFactors),
    ("strengths", Json.arr (identifyNetworkStrengths conditionFactors)),
    ("concerns", Json.arr (identifyNetworkConcerns conditionFactors)),
    ("outlook", Json.str "stable")])

/-- `OnChainAnalyzer._get_educational_explanations`. -/
def onchainEducationalExplanations : Json :=
  Json.arr [
    Json.str "On-chain metrics provide transparent insights into network activity",
    Json.str "Blockchain data allows for unprecedented market analysis capabilities",
    Json.str "Network fundamentals often diverge from price action in short term",
    Json.str "Long-term value correlates with network utility and adoption",
    Json.str "On-chain analysis complements traditional market analysis methods",
    Json.str "Understanding blockchain metrics helps assess project fundamentals"]

/-- `OnChainAnalyzer._error_response`. -/
def onchainErrorResponse (errorMessage : String) : Json :=
  Json.obj [
    ("error", Json.bool true),
    ("message", Json.str ("On-chain analysis failed: " ++ errorMessage)),
    ("educational_explanations", onchainEducationalExplanations)]

/-- `OnChainAnalyzer.analyze` (query and assets unused; `ts` is the
nondeterministic timestamp). The insight generation always raises
`KeyError('fee_pressure')` on the data built above, so the catch-all turns
every call into the error response. -/
def onchainAnalyze (_query : String) (_assets : List String) (ts : String) : Json :=
  let body : Except String Json := do
    let networkActivity := analyzeNetworkActivity
    let holderBehavior := analyzeHolderBehavior
    let transactionMetrics := analyzeTransactionMetrics
    let networkHealth := analyzeNetworkHealth
    let insights ← generateOnchainInsights networkActivity holderBehavior
      transactionMetrics networkHealth
    let networkConditions ← assessNetworkConditions networkActivity holderBehavior
      transactionMetrics networkHealth
    pure (Json.obj [
      ("analysis_type", Json.str "onchain"),
      ("network_activity", networkActivity),
      ("holder_behavior", holderBehavior),
      ("transaction_metrics", transactionMetrics),
      ("network_health", networkHealth),
      ("network_conditions", networkConditions),
      ("insights", Json.arr (insights.map Json.str)),
      ("educational_explanations", onchainEducationalExplanations),
      ("timestamp", Json.str ts)])
  match body with
  | Except.ok r => r
  | Except.error e => onchainErrorResponse e

/-! ## src/core/market_structure.py — MarketStructureAnalyzer -/

/-- `MarketPhase` / `VolatilityRegime` / `LiquidityCondition` enum values are
used only through their `.value` strings, so they are embedded as strings. -/
def marketPhaseRange : String := "range"

def marketPhaseTrendUp : String := "trend_up"

def marketPhaseTrendDown : String := "trend_down"

def marketPhaseTransition : String := "transition"

def marketPhaseUncertain : String := "uncertain"

/-- `MarketStructureAnalyzer._classify_market_phase`. -/
def classifyMarketPhase (indicators : Json) : Except String String := do
  let priceBias ← jidx (← jidx indicators "price_characteristics") "directional_bias"
  let volumeQuality ← jidx (← jidx indicators "volume_patterns") "volume_quality"
  if priceBias.eqStr "neutral" && volumeQuality.eqStr "moderate" then
    pure marketPhaseRange
  else if priceBias.memStr ["bullish", "bearish"] && volumeQuality.eqStr "strong" then
    pure (if priceBias.eqStr "bullish" then marketPhaseTrendUp else marketPhaseTrendDown)
  else
    pure marketPhaseUncertain

/-- `MarketStructureAnalyzer._assess_phase_confidence`. -/
def assessPhaseConfidence (_indicators : Json) : String :=
  "moderate"

/-- `MarketStructureAnalyzer._get_phase_characteristics`. -/
def getPhaseCharacteristics (phase : String) : Json :=
  let uncertainCharacteristics := Json.obj [
    ("description", Json.str "Clear phase classification not possible"),
    ("typical_duration", Json.str "variable"),
    ("volatility_tendency", Json.str "variable"),
    ("clarity_level", Json.str "low")]
  if phase = marketPhaseRange then
    Json.obj [
      ("description", Json.str "Price moves within defined boundaries"),
      ("typical_duration", Json.str "weeks to months"),
      ("volatility_tendency", Json.str "moderate"),
      ("breakout_potential", Json.str "present")]
  else if phase = marketPhaseTrendUp then
    Json.obj [
      ("description", Json.str "Sustained upward price movement"),
      ("typical_duration", Json.str "months"),
      ("volatility_tendency", Json.str "low_to_moderate"),
      ("momentum_characteristics", Json.str "positive")]
  else if phase = marketPhaseTrendDown then
    Json.obj [
      ("description", Json.str "Sustained downward price movement"),
      ("typical_duration", Json.str "months"),
      ("volatility_tendency", Json.str "moderate_to_high"),
      ("momentum_characteristics", Json.str "negative")]
  else if phase = marketPhaseTransition then
    Json.obj [
      ("description", Json.str "Market structure changing between phases"),
      ("typical_duration", Json.str "days to weeks"),
      ("volatility_tendency", Json.str "increasing"),
      ("uncertainty_level", Json.str "high")]
  else uncertainCharacteristics

/-- `MarketStructureAnalyzer._identify_transition_risks`. -/
def identifyTransitionRisks (phase : String) (_indicators : Json) : Json :=
  let baseRisks := [
    Json.str "Phase transitions can occur without warning",
    Json.str "Volatility often increases during transitions",
    Json.str "Liquidity may deteriorate during structural changes"]
  if phase = marketPhaseRange then
    Json.arr (baseRisks ++ [Json.str "Range breakouts can be explosive and unpredictable"])
  else if phase = marketPhaseTrendUp ∨ phase = marketPhaseTrendDown then
    Json.arr (baseRisks ++ [Json.str "Trend exhaustion can lead to rapid reversals"])
  else Json.arr baseRisks

/-- `MarketStructureAnalyzer._analyze_market_phase`. -/
def analyzeMarketPhase (_query : String) (_assets : List String) :
    Except String Json := do
  let phaseIndicators := Json.obj [
    ("price_characteristics", Json.obj [
      ("directional_bias", Json.str "neutral"),
      ("momentum_quality", Json.str "moderate"),
      ("trend_consistency", Json.str "variable"),
      ("explanation", Json.str "Price characteristics help identify whether markets are trending, ranging, or in transition.")]),
    ("volume_patterns", Json.obj [
      ("volume_trend", Json.str "stable"),
      ("volume_quality", Json.str "moderate"),
      ("participation_level", Json.str "moderate"),
      ("explanation", Json.str "Volume analysis provides insights into market conviction and participation strength.")]),
    ("range_boundaries", Json.obj [
      ("support_resistance", Json.str "identifiable"),
      ("range_width", Json.str "moderate"),
      ("boundary_strength", Json.str "moderate"),
      ("explanation", Json.str "Range boundaries indicate areas of buying/selling interest and potential support/resistance.")]),
    ("transition_signals", Json.obj [
      ("phase_shift_probability", Json.str "moderate"),
      ("transition_clarity", Json.str "unclear"),
      ("breakout_potential", Json.str "balanced"),
      ("explanation", Json.str "Transition signals help identify potential phase changes in market structure.")])]
  let marketPhase ← classifyMarketPhase phaseIndicators
  let phaseConfidence := assessPhaseConfidence phaseIndicators
  pure (Json.obj [
    ("current_phase", Json.str marketPhase),
    ("phase_confidence", Json.str phaseConfidence),
    ("indicators", phaseIndicators),
    ("phase_characteristics", getPhaseCharacteristics marketPhase),
    ("transition_risks", identifyTransitionRisks marketPhase phaseIndicators),
    ("educational_notes", Json.arr [
      Json.str "Market phases help contextualize price action and volatility patterns",
      Json.str "Phase identification is probabilistic, not deterministic",
      Json.str "Different assets can be in different phases simultaneously",
      Json.str "Phase transitions often coincide with volatility changes"])])

/-- `MarketStructureAnalyzer._classify_volatility_regime`. -/
def classifyVolatilityRegime (indicators : Json) : Except String Json := do
  let volatilityLevel ← jidx (← jidx indicators "volatility_level") "current_regime"
  pure volatilityLevel

/-- `MarketStructureAnalyzer._assess_regime_stability`. -/
def assessRegimeStability (indicators : Json) : Except String Json := do
  let persistence ← jidx (← jidx indicators "volatility_persistence") "regime_stability"
  pure persistence

/-- `MarketStructureAnalyzer._get_regime_characteristics`. -/
def getRegimeCharacteristics (regime : String) : Json :=
  let mediumCharacteristics := Json.obj [
    ("description", Json.str "Moderate price fluctuations"),
    ("risk_profile", Json.str "moderate"),
    ("participant_impact", Json.str "balanced across strategies")]
  if regime = "low" then
    Json.obj [
      ("description", Json.str "Minimal price fluctuations"),
      ("risk_profile", Json.str "lower"),
      ("participant_impact", Json.str "favors position holders")]
  else if regime = "medium" then mediumCharacteristics
  else if regime = "high" then
    Json.obj [
      ("description", Json.str "Significant price fluctuations"),
      ("risk_profile", Json.str "higher"),
      ("participant_impact", Json.str "favors short-term traders")]
  else if regime = "extreme" then
    Json.obj [
      ("description", Json.str "Very large price fluctuations"),
      ("risk_profile", Json.str "very_high"),
      ("participant_impact", Json.str "creates both risks and opportunities")]
  else mediumCharacteristics

/-- `MarketStructureAnalyzer._assess_volatility_risks`. -/
def assessVolatilityRisks (regime : String) (_indicators : Json) : Json :=
  let baseRisks := [
    Json.str "Volatility can increase suddenly and unexpectedly",
    Json.str "High volatility increases execution risk and slippage",
    Json.str "Volatility clustering can create extended periods of risk"]
  if regime = "high" ∨ regime = "extreme" then
    Json.arr (baseRisks ++ [Json.str "Current regime presents elevated risk levels"])
  else Json.arr baseRisks

/-- `MarketStructureAnalyzer._analyze_volatility_regime`. -/
def analyzeVolatilityRegime (_query : String) (_assets : List String) :
    Except String Json := do
  let volatilityIndicators := Json.obj [
    ("volatility_level", Json.obj [
      ("current_regime", Json.str "medium"),
      ("historical_comparison", Json.str "near_average"),
      ("trend_direction", Json.str "stable"),
      ("explanation", Json.str "Volatility level indicates the magnitude of price fluctuations and market uncertainty.")]),
    ("volatility_persistence", Json.obj [
      ("autocorrelation", Json.str "moderate"),
      ("regime_stability", Json.str "moderate"),
      ("mean_reversion_tendency", Json.str "present"),
      ("explanation", Json.str "Volatility persistence shows whether current conditions are likely to continue.")]),
    ("volatility_skew", Json.obj [
      ("asymmetry", Json.str "slight_negative"),
      ("tail_risk", Json.str "moderate"),
      ("distribution_shape", Json.str "near_normal"),
      ("explanation", Json.str "Volatility skew reveals asymmetries in upside vs downside volatility potential.")]),
    ("intraday_patterns", Json.obj [
      ("session_consistency", Json.str "moderate"),
      ("time_of_day_effects", Json.str "present"),
      ("gap_behavior", Json.str "moderate"),
      ("explanation", Json.str "Intraday patterns help understand volatility dynamics throughout trading sessions.")])]
  let volatilityRegime ← classifyVolatilityRegime volatilityIndicators
  let regimeStability ← assessRegimeStability volatilityIndicators
  pure (Json.obj [
    ("current_regime", volatilityRegime),
    ("regime_stability", regimeStability),
    ("indicators", volatilityIndicators),
    ("regime_characteristics", getRegimeCharacteristics volatilityRegime.asStr),
    ("risk_implications", assessVolatilityRisks volatilityRegime.asStr volatilityIndicators),
    ("educational_context", Json.arr [
      Json.str "Volatility regimes influence risk management and position sizing considerations",
      Json.str "Different regimes favor different types of market participants",
      Json.str "Volatility clustering is common in crypto markets",
      Json.str "Regime transitions often present both risks and opportunities"])])

/-- `MarketStructureAnalyzer._classify_liquidity_condition`. -/
def classifyLiquidityCondition (indicators : Json) : Except String String := do
  let depthLevel ← jidx (← jidx indicators "order_book_depth") "depth_level"
  let impactLevel ← jidx (← jidx indicators "market_impact") "impact_level"
  if depthLevel.eqStr "high" && impactLevel.eqStr "low" then
    pure "ample"
  else if depthLevel.eqStr "low" && impactLevel.eqStr "high" then
    pure "tight"
  else
    pure "moderate"

/-- `MarketStructureAnalyzer._assess_liquidity_stability`. -/
def assessLiquidityStability (_indicators : Json) : String :=
  "moderate"

/-- `MarketStructureAnalyzer._get_liquidity_characteristics`. -/
def getLiquidityCharacteristics (condition : String) : Json :=
  let moderateCharacteristics := Json.obj [
    ("description", Json.str "Sufficient liquidity with some limitations"),
    ("execution_impact", Json.str "moderate"),
    ("cost_implications", Json.str "reasonable transaction costs")]
  if condition = "ample" then
    Json.obj [
      ("description", Json.str "Abundant liquidity across price levels"),
      ("execution_impact", Json.str "minimal"),
      ("cost_implications", Json.str "lower transaction costs")]
  else if condition = "moderate" then moderateCharacteristics
  else if condition = "tight" then
    Json.obj [
      ("description", Json.str "Limited liquidity at key price levels"),
      ("execution_impact", Json.str "significant"),
      ("cost_implications", Json.str "higher transaction costs")]
  else if condition = "very_tight" then
    Json.obj [
      ("description", Json.str "Very limited liquidity throughout order book"),
      ("execution_impact", Json.str "severe"),
      ("cost_implications", Json.str "very high transaction costs")]
  else moderateCharacteristics

/-- `MarketStructureAnalyzer._assess_execution_considerations`. -/
def assessExecutionConsiderations (condition : String) (_indicators : Json) : Json :=
  let baseConsiderations := [
    Json.str "Market impact increases with trade size",
    Json.str "Timing of execution affects transaction costs",
    Json.str "Order type selection becomes more important in tight conditions"]
  if condition = "tight" ∨ condition = "very_tight" then
    Json.arr (baseConsiderations ++
      [Json.str "Current liquidity conditions require careful execution planning"])
  else Json.arr baseConsiderations

/-- `MarketStructureAnalyzer._analyze_liquidity_conditions`. -/
def structureAnalyzeLiquidityConditions (_query : String) (_assets : List String) :
    Except String Json := do
  let liquidityIndicators := Json.obj [
    ("order_book_depth", Json.obj [
      ("depth_level", Json.str "moderate"),
      ("spread_tightness", Json.str "moderate"),
      ("depth_distribution", Json.str "balanced"),
      ("explanation", Json.str "Order book depth indicates available liquidity at different price levels.")]),
    ("market_impact", Json.obj [
      ("impact_level", Json.str "moderate"),
      ("slippage_expectation", Json.str "moderate"),
      ("size_capacity", Json.str "moderate"),
      ("explanation", Json.str "Market impact shows how trade sizes affect prices, indicating liquidity quality.")]),
    ("participation_diversity", Json.obj [
      ("participant_types", Json.str "diverse"),
      ("geographic_distribution", Json.str "global"),
      ("institutional_presence", Json.str "growing"),
      ("explanation", Json.str "Participation diversity affects liquidity stability and market resilience.")]),
    ("temporal_patterns", Json.obj [
      ("session_liquidity", Json.str "variable"),
      ("day_of_week_effects", Json.str "present"),
      ("market_hours_impact", Json.str "significant"),
      ("explanation", Json.str "Temporal patterns reveal how liquidity varies across time periods.")])]
  let liquidityCondition ← classifyLiquidityCondition liquidityIndicators
  let liquidityStability := assessLiquidityStability liquidityIndicators
  pure (Json.obj [
    ("current_condition", Json.str liquidityCondition),
    ("condition_stability", Json.str liquidityStability),
    ("indicators", liquidityIndicators),
    ("condition_characteristics", getLiquidityCharacteristics liquidityCondition),
    ("execution_considerations", assessExecutionConsiderations liquidityCondition liquidityIndicators),
    ("educational_insights", Json.arr [
      Json.str "Liquidity conditions affect transaction costs and market efficiency",
      Json.str "Liquidity can vary significantly across different cryptocurrencies",
      Json.str "Market stress often coincides with liquidity deterioration",
      Json.str "Understanding liquidity helps manage execution risk"])])

/-- `MarketStructureAnalyzer._assess_efficiency_level`. -/
def assessEfficiencyLevel (_indicators : Json) : String :=
  "moderate"

/-- `MarketStructureAnalyzer._identify_structural_biases`. -/
def identifyStructuralBiases (indicators : Json) : Except String Json := do
  let structural ← jidx indicators "structural_biases"
  let seasonal ← jidx structural "seasonal_patterns"
  let biases1 : List Json :=
    if seasonal.eqStr "present" then
      [Json.str "Seasonal patterns suggest recurring time-based effects"]
    else []
  let dayOfWeek ← jidx structural "day_of_week_effects"
  let biases2 : List Json :=
    if dayOfWeek.eqStr "present" then
      [Json.str "Day-of-week effects indicate weekday-based patterns"]
    else []
  pure (Json.arr (biases1 ++ biases2))

/-- `MarketStructureAnalyzer._get_efficiency_characteristics`. -/
def getEfficiencyCharacteristics (level : String) : Json :=
  let moderateCharacteristics := Json.obj [
    ("description", Json.str "Prices reasonably reflect available information"),
    ("arbitrage_opportunities", Json.str "occasional"),
    ("predictability", Json.str "moderate")]
  if level = "high" then
    Json.obj [
      ("description", Json.str "Prices quickly reflect available information"),
      ("arbitrage_opportunities", Json.str "rare"),
      ("predictability", Json.str "low")]
  else if level = "moderate" then moderateCharacteristics
  else if level = "low" then
    Json.obj [
      ("description", Json.str "Prices may not fully reflect available information"),
      ("arbitrage_opportunities", Json.str "more common"),
      ("predictability", Json.str "higher")]
  else moderateCharacteristics

/-- `MarketStructureAnalyzer._assess_bias_implications`. -/
def assessBiasImplications (biases : Json) : Json :=
  let baseImplications := [
    Json.str "Structural biases may create temporary inefficiencies",
    Json.str "Bias exploitation requires careful risk management",
    Json.str "Biases can change or disappear over time"]
  if biases.truthy then
    Json.arr (baseImplications ++ [Json.str "Identified biases warrant further investigation"])
  else Json.arr baseImplications

/-- `MarketStructureAnalyzer._analyze_market_efficiency`. -/
def analyzeMarketEfficiency (_query : String) (_assets : List String) :
    Except String Json := do
  let efficiencyIndicators := Json.obj [
    ("information_flow", Json.obj [
      ("price_discovery", Json.str "moderate"),
      ("news_incorporation", Json.str "reasonable"),
      ("cross_market_arbitrage", Json.str "present"),
      ("explanation", Json.str "Information flow efficiency shows how quickly markets process new information.")]),
    ("structural_biases", Json.obj [
      ("seasonal_patterns", Json.str "present"),
      ("day_of_week_effects", Json.str "mild"),
      ("holiday_effects", Json.str "present"),
      ("explanation", Json.str "Structural biases are recurring patterns that may indicate market inefficiencies.")]),
    ("market_microstructure", Json.obj [
      ("tick_size_impact", Json.str "moderate"),
      ("lot_size_effects", Json.str "present"),
      ("trading_frictions", Json.str "moderate"),
      ("explanation", Json.str "Market microstructure affects how efficiently prices are formed and updated.")]),
    ("behavioral_patterns", Json.obj [
      ("herding_behavior", Json.str "present"),
      ("overreaction_tendencies", Json.str "present"),
      ("mean_reversion", Json.str "present"),
      ("explanation", Json.str "Behavioral patterns can create predictable but temporary market inefficiencies.")])]
  let efficiencyLevel := assessEfficiencyLevel efficiencyIndicators
  let structuralBiases ← identifyStructuralBiases efficiencyIndicators
  pure (Json.obj [
    ("efficiency_level", Json.str efficiencyLevel),
    ("structural_biases", structuralBiases),
    ("indicators", efficiencyIndicators),
    ("efficiency_characteristics", getEfficiencyCharacteristics efficiencyLevel),
    ("bias_implications", assessBiasImplications structuralBiases),
    ("educational_context", Json.arr [
      Json.str "Market efficiency affects how quickly prices reflect available information",
      Json.str "Structural biases can create exploitable but risky patterns",
      Json.str "Crypto markets may have different efficiency characteristics than traditional markets",
      Json.str "Efficiency can vary across different cryptocurrencies and market conditions"])])

/-- `MarketStructureAnalyzer._generate_structure_insights`. -/
def generateStructureInsights (phase volatility liquidity efficiency : Json) :
    List String :=
  let currentPhase := phase.getD "current_phase" (Json.str "uncertain")
  let insights1 : List String :=
    if currentPhase.eqStr marketPhaseRange then
      ["Range-bound market structure suggests defined support/resistance levels"]
    else if currentPhase.memStr [marketPhaseTrendUp, marketPhaseTrendDown] then
      ["Trending market structure indicates directional momentum"]
    else if currentPhase.eqStr marketPhaseTransition then
      ["Transition phase suggests potential structural changes ahead"]
    else []
  let volatilityRegime := volatility.getD "current_regime" (Json.str "medium")
  let insights2 : List String :=
    if volatilityRegime.eqStr "high" then
      ["High volatility regime suggests increased uncertainty and risk"]
    else if volatilityRegime.eqStr "low" then
      ["Low volatility regime may indicate market complacency or consolidation"]
    else []
  let liquidityCondition := liquidity.getD "current_condition" (Json.str "moderate")
  let insights3 : List String :=
    if liquidityCondition.eqStr "tight" then
      ["Tight liquidity conditions may increase execution costs and market impact"]
    else if liquidityCondition.eqStr "ample" then
      ["Ample liquidity conditions support efficient price discovery"]
    else []
  let efficiencyLevel := efficiency.getD "efficiency_level" (Json.str "moderate")
  let insights4 : List String :=
    if efficiencyLevel.eqStr "low" then
      ["Lower market efficiency may create temporary structural opportunities"]
    else if efficiencyLevel.eqStr "high" then
      ["Higher market efficiency suggests prices quickly reflect available information"]
    else []
  insights1 ++ insights2 ++ insights3 ++ insights4

/-- `MarketStructureAnalyzer._assess_structure_quality`. -/
def assessStructureQuality (_components : Json) : String :=
  "moderate"

/-- `MarketStructureAnalyzer._assess_structure_risk_context`. -/
def assessStructureRiskContext (_components : Json) : Json :=
  Json.obj [
    ("overall_risk", Json.str "moderate"),
    ("key_risk_factors", Json.arr [
      Json.str "Market structure can change without warning",
      Json.str "Current conditions may not persist",
      Json.str "Structural analysis has inherent limitations"])]

/-- `MarketStructureAnalyzer._identify_structure_strengths`. -/
def identifyStructureStrengths (components : Json) : Except String Json := do
  let liquidityCondition ← jidx components "liquidity_condition"
  let strengths1 : List Json :=
    if liquidityCondition.eqStr "ample" then
      [Json.str "Strong liquidity supports efficient execution"]
    else []
  let volatilityRegime ← jidx components "volatility_regime"
  let strengths2 : List Json :=
    if volatilityRegime.eqStr "low" then
      [Json.str "Low volatility reduces execution uncertainty"]
    else []
  pure (Json.arr (strengths1 ++ strengths2))

/-- `MarketStructureAnalyzer._identify_structure_concerns`. -/
def identifyStructureConcerns (components : Json) : Except String Json := do
  let liquidityCondition ← jidx components "liquidity_condition"
  let concerns1 : List Json :=
    if liquidityCondition.memStr ["tight", "very_tight"] then
      [Json.str "Tight liquidity may increase execution costs"]
    else []
  let volatilityRegime ← jidx components "volatility_regime"
  let concerns2 : List Json :=
    if volatilityRegime.memStr ["high", "extreme"] then
      [Json.str "High volatility increases market risk"]
    else []
  pure (Json.arr (concerns1 ++ concerns2))

/-- `MarketStructureAnalyzer._assess_market_maturity` (structure variant). -/
def structureAssessMarketMaturity (_components : Json) : String :=
  "developing"

/-- `MarketStructureAnalyzer._assess_market_structure`. -/
def assessMarketStructure (phase volatility liquidity efficiency : Json) :
    Except String Json := do
  let structureComponents := Json.obj [
    ("market_phase", phase.getD "current_phase" (Json.str "uncertain")),
    ("volatility_regime", volatility.getD "current_regime" (Json.str "medium")),
    ("liquidity_condition", liquidity.getD "current_condition" (Json.str "moderate")),
    ("efficiency_level", efficiency.getD "efficiency_level" (Json.str "moderate"))]
  let structureQuality := assessStructureQuality structureComponents
  let riskContext := assessStructureRiskContext structureComponents
  let strengths ← identifyStructureStrengths structureComponents
  let concerns ← identifyStructureConcerns structureComponents
  pure (Json.obj [
    ("overall_structure", structureComponents),
    ("structure_quality", Json.str structureQuality),
    ("risk_context", riskContext),
    ("structural_strengths", strengths),
    ("structural_concerns", concerns),
    ("market_maturity", Json.str (structureAssessMarketMaturity structureComponents))])

/-- `MarketStructureAnalyzer._get_educational_context`. -/
def structureEducationalContext : Json :=
  Json.arr [
    Json.str "Market structure analysis provides context for price movements",
    Json.str "Understanding structure helps assess risk and opportunity",
    Json.str "Structure analysis complements other forms of market analysis",
    Json.str "Market structure is dynamic and can change rapidly",
    Json.str "Structural analysis is educational, not predictive"]

/-- `MarketStructureAnalyzer._get_assumptions`. -/
def structureAssumptions : Json :=
  Json.arr [
    Json.str "Market structure analysis is based on conceptual frameworks",
    Json.str "Current conditions may not reflect future states",
    Json.str "Structural patterns have varying degrees of reliability",
    Json.str "Analysis does not account for unexpected market events"]

/-- `MarketStructureAnalyzer._get_limitations`. -/
def structureLimitations : Json :=
  Json.arr [
    Json.str "Analysis does not use real-time market data",
    Json.str "Structural analysis cannot predict market movements",
    Json.str "Market structure classification has inherent uncertainty",
    Json.str "Educational focus limits practical trading applications"]

/-- `MarketStructureAnalyzer._error_response`. -/
def structureErrorResponse (errorMessage : String) : Json :=
  Json.obj [
    ("error", Json.bool true),
    ("message", Json.str ("Market structure analysis failed: " ++ errorMessage)),
    ("educational_context", structureEducationalContext),
    ("assumptions", structureAssumptions),
    ("limitations", structureLimitations)]

/-- `MarketStructureAnalyzer.analyze`: defaults a falsy asset list to
`["bitcoin", "ethereum"]`, then builds the result (query/assets are passed
to every helper but never used beyond that default). -/
def marketStructureAnalyze (query : String) (assetsIn : List String) (ts : String) : Json :=
  let assets := if assetsIn.isEmpty then ["bitcoin", "ethereum"] else assetsIn
  let body : Except String Json := do
    let phaseAnalysis ← analyzeMarketPhase query assets
    let volatilityAnalysis ← analyzeVolatilityRegime query assets
    let liquidityAnalysis ← structureAnalyzeLiquidityConditions query assets
    let efficiencyAnalysis ← analyzeMarketEfficiency query assets
    let insights := generateStructureInsights phaseAnalysis volatilityAnalysis
      liquidityAnalysis efficiencyAnalysis
    let structureAssessment ← assessMarketStructure phaseAnalysis volatilityAnalysis
      liquidityAnalysis efficiencyAnalysis
    pure (Json.obj [
      ("analysis_type", Json.str "market_structure"),
      ("market_phase", phaseAnalysis),
      ("volatility_regime", volatilityAnalysis),
      ("liquidity_conditions", liquidityAnalysis),
      ("market_efficiency", efficiencyAnalysis),
      ("structure_assessment", structureAssessment),
      ("insights", Json.arr (insights.map Json.str)),
      ("educational_context", structureEducationalContext),
      ("assumptions", structureAssumptions),
      ("limitations", structureLimitations),
      ("timestamp", Json.str ts)])
  match body with
  | Except.ok r => r
  | Except.error e => structureErrorResponse e

/-! ## src/core/research_pipeline.py — ResearchPipeline -/

/-- `ResearchPhase` enum. -/
inductive ResearchPhase where
  | macroPhase : ResearchPhase
  | sentimentPhase : ResearchPhase
  | onchainPhase : ResearchPhase
  | marketStructurePhase : ResearchPhase
  | synthesisPhase : ResearchPhase
deriving DecidableEq

/-- `ResearchPhase.value`. -/
def ResearchPhase.value : ResearchPhase → String
  | ResearchPhase.macroPhase => "macro"
  | ResearchPhase.sentimentPhase => "sentiment"
  | ResearchPhase.onchainPhase => "onchain"
  | ResearchPhase.marketStructurePhase => "market_structure"
  | ResearchPhase.synthesisPhase => "synthesis"

/-- `ResearchPipeline.pipeline_phases`. -/
def pipelinePhases : List ResearchPhase :=
  [ResearchPhase.macroPhase, ResearchPhase.sentimentPhase,
   ResearchPhase.onchainPhase, ResearchPhase.marketStructurePhase,
   ResearchPhase.synthesisPhase]

/-- The nondeterministic per-request inputs of a run: `datetime.utcnow()`
timestamps, `uuid.uuid4()`, and `time.time()` durations. -/
structure Runtime where
  ts : String
  rid : String
  phaseTs : ResearchPhase → String
  phaseTime : ResearchPhase → Rat
  totalTime : Rat
  fmtTs : String

/-- `ResearchContext`. -/
structure ResearchContext where
  query : String
  assets : List String
  timestamp : String
  researchId : String
  assumptions : List Json
  limitations : List Json

/-- `PhaseResult`. -/
structure PhaseResult where
  phase : ResearchPhase
  data : Json
  confidence : String
  assumptions : Json
  limitations : Json
  executionTime : Rat

/-- `ResearchPipeline._execute_analysis_phase` (the analyzers catch their
own exceptions, so the surrounding `try` only sees the `ValueError` of the
unknown-phase branch). -/
def executeAnalysisPhase (phase : ResearchPhase) (context : ResearchContext)
    (rt : Runtime) : PhaseResult :=
  let dataE : Except String Json :=
    match phase with
    | ResearchPhase.macroPhase =>
      Except.ok (macroAnalyze context.query context.assets (rt.phaseTs phase))
    | ResearchPhase.sentimentPhase =>
      Except.ok (sentimentAnalyze context.query context.assets (rt.phaseTs phase))
    | ResearchPhase.onchainPhase =>
      Except.ok (onchainAnalyze context.query context.assets (rt.phaseTs phase))
    | ResearchPhase.marketStructurePhase =>
      Except.ok (marketStructureAnalyze context.query context.assets (rt.phaseTs phase))
    | ResearchPhase.synthesisPhase =>
      Except.error ("Unknown analysis phase: " ++ ResearchPhase.synthesisPhase.value)
  match dataE with
  | Except.ok data =>
    ⟨phase, data, data.getStrD "confidence_level" "moderate",
     data.getD "assumptions" (Json.arr []), data.getD "limitations" (Json.arr []),
     rt.phaseTime phase⟩
  | Except.error e =>
    ⟨phase, Json.obj [("error", Json.str e)], "low",
     Json.arr [Json.str ("Analysis failed: " ++ e)],
     Json.arr [Json.str "Phase execution error"], rt.phaseTime phase⟩

/-- `ResearchPipeline._get_phase_data`. -/
def getPhaseData (phaseResults : List PhaseResult) (phase : ResearchPhase) : Json :=
  match phaseResults.find? (fun r => r.phase = phase) with
  | some r => r.data
  | none => Json.obj []

/-- `ResearchPipeline._identify_cross_phase_correlations`. -/
def identifyCrossPhaseCorrelations (macroD sentimentD onchainD structureD : Json) :
    Json :=
  let correlations1 : List Json :=
    if ((macroD.getD "overall_conditions" (Json.obj [])).getN "overall").eqStr "challenging"
        && ((sentimentD.getD "overall_sentiment" (Json.obj [])).getN "overall_sentiment").eqStr "negative" then
      [Json.obj [
        ("type", Json.str "macro_sentiment"),
        ("phases", Json.arr [Json.str "macro", Json.str "sentiment"]),
        ("observation", Json.str "Challenging macro conditions align with negative sentiment"),
        ("strength", Json.str "strong"),
        ("significance", Json.str "high")]]
    else []
  let correlations2 : List Json :=
    if ((onchainD.getD "network_conditions" (Json.obj [])).getN "overall_status").eqStr "positive"
        && ((structureD.getD "market_phase" (Json.obj [])).getN "trend_strength").eqStr "strong" then
      [Json.obj [
        ("type", Json.str "onchain_structure"),
        ("phases", Json.arr [Json.str "onchain", Json.str "market_structure"]),
        ("observation", Json.str "Strong network fundamentals support robust market structure"),
        ("strength", Json.str "moderate"),
        ("significance", Json.str "medium")]]
    else []
  let correlations3 : List Json :=
    if ((sentimentD.getD "overall_sentiment" (Json.obj [])).getN "overall_sentiment").eqStr "neutral"
        && ((structureD.getD "market_phase" (Json.obj [])).getN "phase").eqStr "range" then
      [Json.obj [
        ("type", Json.str "sentiment_structure"),
        ("phases", Json.arr [Json.str "sentiment", Json.str "market_structure"]),
        ("observation", Json.str "Neutral sentiment coincides with range-bound market structure"),
        ("strength", Json.str "moderate"),
        ("significance", Json.str "medium")]]
    else []
  Json.arr (correlations1 ++ correlations2 ++ correlations3)

/-- The `state_indicators` dict collected by
`ResearchPipeline._assess_overall_market_state`. -/
def stateIndicatorsOf (macroD sentimentD onchainD structureD : Json) :
    List (String × Json) :=
  (if macroD.truthy then
    [("macro", (macroD.getD "overall_conditions" (Json.obj [])).getD "overall" (Json.str "neutral"))]
  else []) ++
  (if sentimentD.truthy then
    [("sentiment", (sentimentD.getD "overall_sentiment" (Json.obj [])).getD "overall_sentiment" (Json.str "neutral"))]
  else []) ++
  (if onchainD.truthy then
    [("onchain", (onchainD.getD "network_conditions" (Json.obj [])).getD "overall_status" (Json.str "neutral"))]
  else []) ++
  (if structureD.truthy then
    [("structure", (structureD.getD "market_phase" (Json.obj [])).getD "overall_bias" (Json.str "neutral"))]
  else [])

/-- The positive tally of `_assess_overall_market_state`. -/
def positiveStateCount (indicators : List (String × Json)) : Nat :=
  (indicators.map Prod.snd).countP
    (fun v => v.memStr ["positive", "supportive", "strong"])

/-- The negative tally of `_assess_overall_market_state`. -/
def negativeStateCount (indicators : List (String × Json)) : Nat :=
  (indicators.map Prod.snd).countP
    (fun v => v.memStr ["negative", "challenging", "weak"])

/-- `ResearchPipeline._identify_dominant_factors`. -/
def identifyDominantFactors (stateIndicators : List (String × Json)) : Json :=
  Json.arr ((stateIndicators.filter (fun kv => ¬ kv.2.eqStr "neutral")).map
    (fun kv => Json.str (pyTitle kv.1 ++ ": " ++ kv.2.asStr)))

/-- `ResearchPipeline._assess_overall_market_state`. -/
def assessOverallMarketState (macroD sentimentD onchainD structureD : Json) : Json :=
  let stateIndicators := stateIndicatorsOf macroD sentimentD onchainD structureD
  let positiveCount := positiveStateCount stateIndicators
  let negativeCount := negativeStateCount stateIndicators
  let overallState : String :=
    if positiveCount > negativeCount then "positive"
    else if negativeCount > positiveCount then "negative"
    else "neutral"
  Json.obj [
    ("overall_state", Json.str overallState),
    ("phase_indicators", Json.obj stateIndicators),
    ("state_confidence", Json.str "moderate"),
    ("dominant_factors", identifyDominantFactors stateIndicators)]

/-- `ResearchPipeline._compile_assumptions`. -/
def compileAssumptions (macroD sentimentD onchainD structureD : Json) : Json :=
  let baseAssumptions := [
    Json.str "Analysis is based on conceptual and educational frameworks",
    Json.str "Market conditions are dynamic and may change rapidly",
    Json.str "Historical patterns may not repeat in future conditions",
    Json.str "Multiple factors influence cryptocurrency market dynamics"]
  let phaseOnes := ([("macro", macroD), ("sentiment", sentimentD),
      ("onchain", onchainD), ("structure", structureD)].map
    (fun kv =>
      if kv.2.truthy && ¬ (kv.2.getN "error").truthy then
        (kv.2.getArrD "assumptions").map
          (fun a => Json.str (pyTitle kv.1 ++ ": " ++ a.asStr))
      else [])).flatten
  Json.arr (baseAssumptions ++ phaseOnes)

/-- `ResearchPipeline._compile_limitations`. -/
def compileLimitations (macroD sentimentD onchainD structureD : Json) : Json :=
  let baseLimitations := [
    Json.str "Analysis does not use real-time market data",
    Json.str "Educational focus limits predictive capabilities",
    Json.str "Market complexity exceeds analytical frameworks",
    Json.str "Unforeseen events can invalidate current analysis"]
  let phaseOnes := ([("macro", macroD), ("sentiment", sentimentD),
      ("onchain", onchainD), ("structure", structureD)].map
    (fun kv =>
      if kv.2.truthy && ¬ (kv.2.getN "error").truthy then
        (kv.2.getArrD "limitations").map
          (fun a => Json.str (pyTitle kv.1 ++ ": " ++ a.asStr))
      else [])).flatten
  Json.arr (baseLimitations ++ phaseOnes)

/-- `ResearchPipeline._assess_research_quality`. -/
def assessResearchQuality (macroD sentimentD onchainD structureD : Json) : Json :=
  let successfulPhases := ([macroD, sentimentD, onchainD, structureD].countP
    (fun d => d.truthy && ¬ (d.getN "error").truthy))
  let totalPhases : Nat := 4
  let qualityScore : Rat := (successfulPhases : Rat) / (totalPhases : Rat)
  let qualityLevel : String :=
    if qualityScore ≥ (3 : Rat) / 4 then "high"
    else if qualityScore ≥ (1 : Rat) / 2 then "moderate"
    else "low"
  Json.obj [
    ("quality_level", Json.str qualityLevel),
    ("successful_phases", Json.num successfulPhases),
    ("total_phases", Json.num totalPhases),
    ("quality_score", Json.num qualityScore),
    ("completeness", Json.str (toString successfulPhases ++ "/" ++ toString totalPhases ++ " phases completed"))]

/-- `ResearchPipeline._calculate_overall_confidence`. -/
def calculateOverallConfidence (macroD sentimentD onchainD structureD : Json) :
    String :=
  let confidences := ([macroD, sentimentD, onchainD, structureD].filter
    (fun d => d.truthy && ¬ (d.getN "error").truthy)).map
    (fun d => d.getStrD "confidence_level" "moderate")
  if confidences.isEmpty then "low"
  else
    let scores := confidences.map (fun c =>
      if c = "high" then (3 : Rat) else if c = "moderate" then 2
      else if c = "low" then 1 else 2)
    let avgScore := scores.sum / (scores.length : Rat)
    if avgScore ≥ (5 : Rat) / 2 then "moderate_to_high"
    else if avgScore ≥ (3 : Rat) / 2 then "moderate"
    else "low"

/-- `ResearchPipeline._synthesize_analyses`. -/
def synthesizeAnalyses (macroD sentimentD onchainD structureD : Json)
    (_context : ResearchContext) : Json :=
  let allInsights :=
    (if macroD.truthy && ¬ (macroD.getN "error").truthy then macroD.getArrD "insights" else []) ++
    (if sentimentD.truthy && ¬ (sentimentD.getN "error").truthy then sentimentD.getArrD "insights" else []) ++
    (if onchainD.truthy && ¬ (onchainD.getN "error").truthy then onchainD.getArrD "insights" else []) ++
    (if structureD.truthy && ¬ (structureD.getN "error").truthy then structureD.getArrD "insights" else [])
  let correlations := identifyCrossPhaseCorrelations macroD sentimentD onchainD structureD
  let marketState := assessOverallMarketState macroD sentimentD onchainD structureD
  let assumptions := compileAssumptions macroD sentimentD onchainD structureD
  let limitations := compileLimitations macroD sentimentD onchainD structureD
  Json.obj [
    ("synthesis_type", Json.str "comprehensive_market_analysis"),
    ("total_insights", Json.num allInsights.length),
    ("key_insights", Json.arr (allInsights.take 10)),
    ("cross_phase_correlations", correlations),
    ("overall_market_state", marketState),
    ("research_quality", assessResearchQuality macroD sentimentD onchainD structureD),
    ("assumptions", assumptions),
    ("limitations", limitations),
    ("confidence_level", Json.str (calculateOverallConfidence macroD sentimentD onchainD structureD))]

/-- `ResearchPipeline._execute_synthesis_phase` (its body is total on the
embedded operations, so the `except` branch is never taken). -/
def executeSynthesisPhase (context : ResearchContext)
    (phaseResults : List PhaseResult) (rt : Runtime) : PhaseResult :=
  let macroData := getPhaseData phaseResults ResearchPhase.macroPhase
  let sentimentData := getPhaseData phaseResults ResearchPhase.sentimentPhase
  let onchainData := getPhaseData phaseResults ResearchPhase.onchainPhase
  let structureData := getPhaseData phaseResults ResearchPhase.marketStructurePhase
  let synthesisData := synthesizeAnalyses macroData sentimentData onchainData
    structureData context
  ⟨ResearchPhase.synthesisPhase, synthesisData,
   synthesisData.getStrD "confidence_level" "moderate",
   synthesisData.getD "assumptions" (Json.arr []),
   synthesisData.getD "limitations" (Json.arr []),
   rt.phaseTime ResearchPhase.synthesisPhase⟩

/-- `ResearchPipeline._get_research_disclaimer`. -/
def researchDisclaimer : String :=
  "This research report is for educational and informational purposes only. " ++
  "It does not constitute financial advice, investment recommendations, or trading signals. " ++
  "Cryptocurrency markets are highly volatile and risky. Always conduct your own research " ++
  "and consult with qualified financial professionals before making any investment decisions."

/-- `ResearchPipeline._compile_research_report`. -/
def compileResearchReport (context : ResearchContext)
    (phaseResults : List PhaseResult) (totalExecutionTime : Rat) : Json :=
  let synthesisData :=
    match phaseResults.find? (fun r => r.phase = ResearchPhase.synthesisPhase) with
    | some r => r.data
    | none => Json.obj []
  Json.obj [
    ("research_metadata", Json.obj [
      ("research_id", Json.str context.researchId),
      ("query", Json.str context.query),
      ("assets_analyzed", Json.arr (context.assets.map Json.str)),
      ("timestamp", Json.str context.timestamp),
      ("total_execution_time", Json.num totalExecutionTime),
      ("pipeline_version", Json.str "1.0.0")]),
    ("pipeline_execution", Json.obj [
      ("phases_completed",
        Json.num ((phaseResults.filter (fun r => ¬ (r.data.getN "error").truthy)).length)),
      ("total_phases", Json.num pipelinePhases.length),
      ("phase_details", Json.obj (phaseResults.map (fun r =>
        (r.phase.value, Json.obj [
          ("execution_time", Json.num r.executionTime),
          ("confidence", Json.str r.confidence),
          ("status", Json.str (if ¬ (r.data.getN "error").truthy then "success" else "failed"))]))))]),
    ("research_findings", synthesisData),
    ("phase_results", Json.obj
      ((phaseResults.filter (fun r => ¬ r.phase = ResearchPhase.synthesisPhase)).map
        (fun r => (r.phase.value, r.data)))),
    ("research_quality", synthesisData.getD "research_quality" (Json.obj [])),
    ("assumptions", synthesisData.getD "assumptions" (Json.arr [])),
    ("limitations", synthesisData.getD "limitations" (Json.arr [])),
    ("disclaimer", Json.str researchDisclaimer)]

/-- `ResearchPipeline.execute_research`: defaults a falsy (`None` or empty)
asset list to `["bitcoin", "ethereum"]`, runs the five phases in order and
compiles the report. The embedded body is total, so the catch-all error
response is never taken. -/
def executeResearch (query : String) (assets : Option (List String))
    (rt : Runtime) : Json :=
  let contextAssets :=
    match assets with
    | some l => if l.isEmpty then ["bitcoin", "ethereum"] else l
    | none => ["bitcoin", "ethereum"]
  let context : ResearchContext := ⟨query, contextAssets, rt.ts, rt.rid, [], []⟩
  let phaseResults := pipelinePhases.foldl
    (fun acc phase =>
      let result :=
        if phase = ResearchPhase.synthesisPhase then
          executeSynthesisPhase context acc rt
        else
          executeAnalysisPhase phase context rt
      acc ++ [result])
    []
  compileResearchReport context phaseResults rt.totalTime

/-- `ResearchPipeline._error_response`. -/
def pipelineErrorResponse (context : ResearchContext) (errorMessage : String) : Json :=
  Json.obj [
    ("research_metadata", Json.obj [
      ("research_id", Json.str context.researchId),
      ("query", Json.str context.query),
      ("assets_analyzed", Json.arr (context.assets.map Json.str)),
      ("timestamp", Json.str context.timestamp),
      ("pipeline_version", Json.str "1.0.0")]),
    ("error", Json.bool true),
    ("message", Json.str ("Research pipeline failed: " ++ errorMessage)),
    ("disclaimer", Json.str researchDisclaimer)]

/-! ## src/core/analyzer.py — MacroChainAnalyzer -/

/-- `MacroChainAnalyzer._get_disclaimer`. -/
def analyzerDisclaimer : String :=
  "This analysis is for educational purposes only and does not constitute " ++
  "financial advice. Cryptocurrency markets are highly volatile and risky. " ++
  "Always conduct your own research and consult with qualified financial " ++
  "professionals before making any investment decisions."

/-- `MacroChainAnalyzer._error_response`. -/
def analyzerErrorResponse (errorMessage : String) : Json :=
  Json.obj [
    ("error", Json.bool true),
    ("message", Json.str ("Analysis failed: " ++ errorMessage)),
    ("disclaimer", Json.str analyzerDisclaimer)]

/-- Python `f"{v}"` for an integer-valued number. -/
def pyIntRepr (j : Json) : String :=
  match j with
  | Json.num q => toString q.num
  | _ => ""

/-- `MacroChainAnalyzer._format_pipeline_results` (two dict subscripts on
`research_metadata` can raise; everything else uses `.get`). -/
def formatPipelineResults (pipelineResult : Json) : Except String Json := do
  let researchFindings := pipelineResult.getD "research_findings" (Json.obj [])
  let phaseResults := pipelineResult.getD "phase_results" (Json.obj [])
  let macroAnalysis := phaseResults.getD "macro" (Json.obj [])
  let sentimentAnalysis := phaseResults.getD "sentiment" (Json.obj [])
  let onchainAnalysis := phaseResults.getD "onchain" (Json.obj [])
  let structureAnalysis := phaseResults.getD "market_structure" (Json.obj [])
  let researchMetadata ← jidx pipelineResult "research_metadata"
  let query ← jidx researchMetadata "query"
  let assetsAnalyzed ← jidx researchMetadata "assets_analyzed"
  let timestamp ← jidx researchMetadata "timestamp"
  let overallMarketState := researchFindings.getD "overall_market_state" (Json.obj [])
  pure (Json.obj [
    ("query", query),
    ("assets_analyzed", assetsAnalyzed),
    ("timestamp", timestamp),
    ("market_conditions", Json.obj [
      ("overall_state", overallMarketState.getD "overall_state" (Json.str "neutral")),
      ("key_factors", overallMarketState.getD "dominant_factors" (Json.arr [])),
      ("confidence_level", researchFindings.getD "confidence_level" (Json.str "moderate"))]),
    ("macro_analysis", macroAnalysis),
    ("sentiment_analysis", sentimentAnalysis),
    ("onchain_analysis", onchainAnalysis),
    ("market_structure_analysis", structureAnalysis),
    ("key_themes", Json.arr ((researchFindings.getArrD "cross_phase_correlations").map
      (fun corr => corr.getD "observation" (Json.str "")))),
    ("correlations", researchFindings.getD "cross_phase_correlations" (Json.arr [])),
    ("educational_summary", Json.str ("Comprehensive research analysis completed with "
      ++ pyIntRepr (researchFindings.getD "total_insights" (Json.num 0))
      ++ " insights identified.")),
    ("risk_factors", pipelineResult.getD "limitations" (Json.arr [])),
    ("research_quality", researchFindings.getD "research_quality" (Json.obj [])),
    ("disclaimer", pipelineResult.getD "disclaimer" (Json.str analyzerDisclaimer))])

/-- `MacroChainAnalyzer.analyze` from the pipeline call on: the pipeline
outcome is passed in so the `try/except` wrapping of an exception from the
analysis layers can be stated; the real entry point below instantiates it
with the (total) embedded pipeline. -/
def macroChainAnalyzeRun (pipelineOutcome : Except String Json) : Json :=
  let body : Except String Json := do
    let pipelineResult ← pipelineOutcome
    if (pipelineResult.getN "error").truthy then
      pure (analyzerErrorResponse (pipelineResult.getStrD "message" "Pipeline failed"))
    else
      formatPipelineResults pipelineResult
  match body with
  | Except.ok r => r
  | Except.error e => analyzerErrorResponse e

/-- `MacroChainAnalyzer.analyze`. -/
def macroChainAnalyze (query : String) (assets : Option (List String))
    (rt : Runtime) : Json :=
  macroChainAnalyzeRun (Except.ok (executeResearch query assets rt))

/-! ## src/services/research_formatter.py — ResearchFormatter -/

/-- The strings of a list value, for `", ".join(assets)` (every element the
source joins is a string). -/
def joinStrings (j : Json) : String :=
  pyJoin ", " (j.elems.map Json.asStr)

/-- `ResearchFormatter._get_professional_disclaimer`. -/
def professionalDisclaimer : String :=
  "**DISCLAIMER**\n\n" ++
  "This research report is for **EDUCATIONAL AND INFORMATIONAL PURPOSES ONLY**. " ++
  "It does **NOT** constitute financial advice, investment recommendations, " ++
  "trading signals, or price predictions.\n\n" ++
  "**RISK WARNING:** Cryptocurrency markets are **HIGHLY VOLATILE AND RISKY**. " ++
  "Prices can fluctuate dramatically, and you may lose ALL of your invested capital.\n\n" ++
  "**NO INVESTMENT ADVICE:** This analysis is designed to help you UNDERSTAND market dynamics, " ++
  "NOT to tell you when to buy, sell, or hold any cryptocurrency.\n\n" ++
  "**DO YOUR OWN RESEARCH:** Always conduct your own thorough research and consult with " ++
  "qualified financial professionals before making any investment decisions.\n\n" ++
  "**PAST PERFORMANCE:** Past performance does not indicate future results. " ++
  "Historical patterns may not repeat in current or future market conditions.\n\n" ++
  "**MARKET UNCERTAINTY:** Cryptocurrency markets are inherently unpredictable and " ++
  "subject to numerous risks including regulatory changes, technological failures, " ++
  "and market manipulation.\n\n" ++
  "By reading this report, you acknowledge that you understand these risks and " ++
  "agree that this information is for educational purposes only."

/-- `ResearchFormatter._format_report_header` (`fmtTs` models the
`self._get_timestamp()` default taken when the metadata has no timestamp). -/
def formatReportHeader (analysisData : Json) (query : String) (fmtTs : String) : Json :=
  let timestamp := (analysisData.getD "research_metadata" (Json.obj [])).getD
    "timestamp" (Json.str fmtTs)
  let assets := (analysisData.getD "research_metadata" (Json.obj [])).getD
    "assets_analyzed" (Json.arr [])
  Json.obj [
    ("title", Json.str "MACROCHAIN â€” CRYPTO MARKET RESEARCH REPORT"),
    ("subtitle", Json.str ("Analysis of " ++ pyTitle (joinStrings assets) ++ " Markets")),
    ("research_query", Json.str query),
    ("publication_date", timestamp),
    ("report_id", (analysisData.getD "research_metadata" (Json.obj [])).getD
      "research_id" (Json.str "UNKNOWN")),
    ("version", Json.str "1.0"),
    ("classification", Json.str "EDUCATIONAL RESEARCH")]

/-- `ResearchFormatter._format_research_focus`. -/
def formatResearchFocus (query : String) (analysisData : Json) : Json :=
  let assets := (analysisData.getD "research_metadata" (Json.obj [])).getD
    "assets_analyzed" (Json.arr [])
  let focusDescription := "Comprehensive analysis of " ++ pyTitle (joinStrings assets)
    ++ " market dynamics based on query: '" ++ query ++ "'"
  Json.obj [
    ("research_objective", Json.str focusDescription),
    ("methodology", Json.arr [
      Json.str "Multi-dimensional market analysis framework",
      Json.str "Macroeconomic context assessment",
      Json.str "Market sentiment and psychology evaluation",
      Json.str "On-chain metrics analysis",
      Json.str "Market structure and risk context examination",
      Json.str "Cross-correlation synthesis"]),
    ("scope", Json.str ("Analysis covers " ++ pyTitle (joinStrings assets)
      ++ " with focus on educational market understanding")),
    ("analytical_framework", Json.str "Structured research pipeline with deterministic methodology"),
    ("time_horizon", Json.str "Current market conditions with educational context")]

/-- `ResearchFormatter._format_section_error`. -/
def formatSectionError (sectionName : String) : Json :=
  Json.obj [
    ("section_title", Json.str sectionName.toUpper),
    ("error", Json.bool true),
    ("message", Json.str (sectionName ++ " data unavailable")),
    ("status", Json.str "section_failed"),
    ("confidence_level", Json.str "low")]

/-- `ResearchFormatter._format_macro_context`. -/
def formatMacroContext (analysisData : Json) : Json :=
  let macroData := (analysisData.getD "phase_results" (Json.obj [])).getD
    "macro" (Json.obj [])
  if (macroData.getN "error").truthy then
    formatSectionError "Macroeconomic Analysis"
  else
    let overallConditions := macroData.getD "overall_conditions" (Json.obj [])
    let liquidityConditions := macroData.getD "liquidity_conditions" (Json.obj [])
    let rateEnvironment := macroData.getD "interest_rate_environment" (Json.obj [])
    let contextPoints :=
      (if (liquidityConditions.getN "overall_status").truthy then
        [Json.str ("Global liquidity conditions appear "
          ++ (liquidityConditions.getN "overall_status").asStr)]
      else []) ++
      (if ((rateEnvironment.getD "implications" (Json.obj [])).getN "overall").truthy then
        [Json.str ("Interest rate environment presents "
          ++ ((rateEnvironment.getD "implications" (Json.obj [])).getN "overall").asStr
          ++ " implications")]
      else []) ++
      (if (overallConditions.getN "overall").truthy then
        [Json.str ("Overall macroeconomic conditions assessed as "
          ++ (overallConditions.getN "overall").asStr)]
      else []) ++
      ((overallConditions.getArrD "key_factors").take 3).map
        (fun factor => Json.str ("Key factor: " ++ factor.asStr))
    Json.obj [
      ("section_title", Json.str "MACRO CONTEXT"),
      ("overall_assessment", overallConditions.getD "overall" (Json.str "neutral")),
      ("key_observations", Json.arr contextPoints),
      ("liquidity_analysis", Json.obj [
        ("status", liquidityConditions.getD "overall_status" (Json.str "moderate")),
        ("trend", liquidityConditions.getD "trend" (Json.str "stable")),
        ("key_considerations", liquidityConditions.getD "key_observations" (Json.arr []))]),
      ("monetary_policy_context", Json.obj [
        ("implications", (rateEnvironment.getD "implications" (Json.obj [])).getD
          "overall" (Json.str "neutral")),
        ("trend", rateEnvironment.getD "trend" (Json.str "monitoring")),
        ("key_considerations", rateEnvironment.getD "educational_context" (Json.arr []))]),
      ("risk_considerations", macroData.getD "educational_notes" (Json.arr [])),
      ("confidence_level", macroData.getD "confidence_level" (Json.str "moderate"))]

/-- `ResearchFormatter._format_market_sentiment`. -/
def formatMarketSentiment (analysisData : Json) : Json :=
  let sentimentData := (analysisData.getD "phase_results" (Json.obj [])).getD
    "sentiment" (Json.obj [])
  if (sentimentData.getN "error").truthy then
    formatSectionError "Market Sentiment Analysis"
  else
    let overallSentiment := sentimentData.getD "overall_sentiment" (Json.obj [])
    let fearGreed := sentimentData.getD "fear_greed_index" (Json.obj [])
    let socialSentiment := sentimentData.getD "social_media_sentiment" (Json.obj [])
    let sentimentPoints :=
      (if (overallSentiment.getN "overall_sentiment").truthy then
        [Json.str ("Overall market sentiment assessed as "
          ++ (overallSentiment.getN "overall_sentiment").asStr)]
      else []) ++
      (if (fearGreed.getN "sentiment_level").truthy then
        [Json.str ("Fear & Greed indicators show "
          ++ (fearGreed.getN "sentiment_level").asStr ++ " sentiment")]
      else []) ++
      (if (socialSentiment.getN "overall_social_sentiment").truthy then
        [Json.str ("Social media sentiment appears "
          ++ (socialSentiment.getN "overall_social_sentiment").asStr)]
      else []) ++
      ((overallSentiment.getArrD "key_drivers").take 3).map
        (fun driver => Json.str ("Driver: " ++ driver.asStr))
    Json.obj [
      ("section_title", Json.str "MARKET SENTIMENT"),
      ("overall_assessment", overallSentiment.getD "overall_sentiment" (Json.str "neutral")),
      ("sentiment_indicators", Json.obj [
        ("fear_greed_index", Json.obj [
          ("level", fearGreed.getD "sentiment_level" (Json.str "neutral")),
          ("interpretation", Json.arr ((fearGreed.getArrD "educational_notes").take 2))]),
        ("social_media", Json.obj [
          ("overall", socialSentiment.getD "overall_social_sentiment" (Json.str "neutral")),
          ("volume_trends", socialSentiment.getD "volume_trends" (Json.str "stable"))]),
        ("news_sentiment", (sentimentData.getD "news_sentiment" (Json.obj [])).getD
          "media_bias_analysis" (Json.obj []))]),
      ("psychological_factors", Json.arr sentimentPoints),
      ("contrarian_signals", overallSentiment.getD "contrarian_signals" (Json.arr [])),
      ("confidence_level", overallSentiment.getD "confidence" (Json.str "moderate"))]

/-- `ResearchFormatter._format_onchain_overview`. -/
def formatOnchainOverview (analysisData : Json) : Json :=
  let onchainData := (analysisData.getD "phase_results" (Json.obj [])).getD
    "onchain" (Json.obj [])
  if (onchainData.getN "error").truthy then
    formatSectionError "On-Chain Analysis"
  else
    let networkConditions := onchainData.getD "network_conditions" (Json.obj [])
    let activityMetrics := onchainData.getD "network_activity" (Json.obj [])
    let holderMetrics := onchainData.getD "holder_behavior" (Json.obj [])
    let onchainPoints :=
      (if (networkConditions.getN "overall_status").truthy then
        [Json.str ("Network health assessed as "
          ++ (networkConditions.getN "overall_status").asStr)]
      else []) ++
      (if ((activityMetrics.getD "overall_activity" (Json.obj [])).getN "trend").truthy then
        [Json.str ("Network activity shows "
          ++ ((activityMetrics.getD "overall_activity" (Json.obj [])).getN "trend").asStr
          ++ " trend")]
      else []) ++
      (if ((holderMetrics.getD "behavioral_insights" (Json.obj [])).getN "long_term_trend").truthy then
        [Json.str ("Long-term holder behavior indicates "
          ++ ((holderMetrics.getD "behavioral_insights" (Json.obj [])).getN "long_term_trend").asStr)]
      else []) ++
      ((networkConditions.getArrD "strengths").take 2).map
        (fun strength => Json.str ("Strength: " ++ strength.asStr)) ++
      ((networkConditions.getArrD "concerns").take 2).map
        (fun concern => Json.str ("Concern: " ++ concern.asStr))
    Json.obj [
      ("section_title", Json.str "ON-CHAIN OVERVIEW"),
      ("network_health", networkConditions.getD "overall_status" (Json.str "moderate")),
      ("activity_trends", Json.obj [
        ("overall_trend", (activityMetrics.getD "overall_activity" (Json.obj [])).getD
          "trend" (Json.str "stable")),
        ("growth_indicators", activityMetrics.getD "growth_indicators" (Json.arr [])),
        ("usage_patterns", activityMetrics.getD "usage_patterns" (Json.obj []))]),
      ("holder_dynamics", Json.obj [
        ("distribution_trends", holderMetrics.getD "behavioral_insights" (Json.obj [])),
        ("market_maturity", holderMetrics.getD "market_maturity" (Json.str "developing")),
        ("risk_indicators", holderMetrics.getD "risk_indicators" (Json.arr []))]),
      ("fundamental_indicators", Json.arr onchainPoints),
      ("network_efficiency", (onchainData.getD "transaction_metrics" (Json.obj [])).getD
        "efficiency_metrics" (Json.obj [])),
      ("confidence_level", networkConditions.getD "confidence_level" (Json.str "moderate"))]

/-- `ResearchFormatter._format_market_structure`. -/
def formatMarketStructureSection (analysisData : Json) : Json :=
  let structureData := (analysisData.getD "phase_results" (Json.obj [])).getD
    "market_structure" (Json.obj [])
  if (structureData.getN "error").truthy then
    formatSectionError "Market Structure Analysis"
  else
    let structureAssessment := structureData.getD "structure_assessment" (Json.obj [])
    let marketPhase := structureData.getD "market_phase" (Json.obj [])
    let volatilityRegime := structureData.getD "volatility_regime" (Json.obj [])
    let liquidityConditions := structureData.getD "liquidity_conditions" (Json.obj [])
    let riskContext := structureAssessment.getD "risk_context" (Json.obj [])
    let structurePoints :=
      (if (structureAssessment.getN "structure_quality").truthy then
        [Json.str ("Market structure quality assessed as "
          ++ (structureAssessment.getN "structure_quality").asStr)]
      else []) ++
      (if (marketPhase.getN "current_phase").truthy then
        [Json.str ("Current market phase identified as "
          ++ (marketPhase.getN "current_phase").asStr)]
      else []) ++
      (if (volatilityRegime.getN "current_regime").truthy then
        [Json.str ("Volatility regime classified as "
          ++ (volatilityRegime.getN "current_regime").asStr)]
      else []) ++
      (if (liquidityConditions.getN "current_condition").truthy then
        [Json.str ("Liquidity conditions are "
          ++ (liquidityConditions.getN "current_condition").asStr)]
      else []) ++
      (if (riskContext.getN "overall_risk").truthy then
        [Json.str ("Overall structural risk context: "
          ++ (riskContext.getN "overall_risk").asStr)]
      else [])
    Json.obj [
      ("section_title", Json.str "MARKET STRUCTURE"),
      ("structure_quality", structureAssessment.getD "structure_quality" (Json.str "moderate")),
      ("market_phase", Json.obj [
        ("current_phase", marketPhase.getD "current_phase" (Json.str "uncertain")),
        ("confidence", marketPhase.getD "phase_confidence" (Json.str "moderate")),
        ("characteristics", marketPhase.getD "phase_characteristics" (Json.obj [])),
        ("transition_risks", marketPhase.getD "transition_risks" (Json.arr []))]),
      ("volatility_regime", Json.obj [
        ("current_regime", volatilityRegime.getD "current_regime" (Json.str "medium")),
        ("stability", volatilityRegime.getD "regime_stability" (Json.str "moderate")),
        ("characteristics", volatilityRegime.getD "regime_characteristics" (Json.obj [])),
        ("risk_implications", volatilityRegime.getD "risk_implications" (Json.arr []))]),
      ("liquidity_analysis", Json.obj [
        ("condition", liquidityConditions.getD "current_condition" (Json.str "moderate")),
        ("stability", liquidityConditions.getD "condition_stability" (Json.str "moderate")),
        ("characteristics", liquidityConditions.getD "condition_characteristics" (Json.obj [])),
        ("execution_considerations", liquidityConditions.getD "execution_considerations" (Json.arr []))]),
      ("structural_assessment", Json.arr structurePoints),
      ("risk_context", riskContext),
      ("confidence_level", Json.str "moderate")]

/-- `ResearchFormatter._format_key_insights`. -/
def formatKeyInsights (analysisData : Json) : Json :=
  let researchFindings := analysisData.getD "research_findings" (Json.obj [])
  let correlations := researchFindings.getArrD "cross_phase_correlations"
  let keyInsights := researchFindings.getArrD "key_insights"
  let correlationInsights := (correlations.filter
    (fun c => (c.getN "observation").truthy)).map
    (fun c => Json.obj [
      ("type", Json.str "cross_phase_correlation"),
      ("insight", c.getN "observation"),
      ("strength", c.getD "strength" (Json.str "moderate")),
      ("phases", c.getD "phases" (Json.arr []))])
  let synthesisInsights := keyInsights.map
    (fun insight => Json.obj [
      ("type", Json.str "key_insight"),
      ("insight", insight),
      ("strength", Json.str "moderate"),
      ("phases", Json.arr [Json.str "synthesis"])])
  let marketState := researchFindings.getD "overall_market_state" (Json.obj [])
  let stateInsights :=
    if (marketState.getN "dominant_factors").truthy then
      (marketState.getArrD "dominant_factors").map
        (fun factor => Json.obj [
          ("type", Json.str "market_state_factor"),
          ("insight", factor),
          ("strength", Json.str "moderate"),
          ("phases", Json.arr [Json.str "synthesis"])])
    else []
  let allInsights := correlationInsights ++ synthesisInsights ++ stateInsights
  Json.obj [
    ("section_title", Json.str "KEY INSIGHTS"),
    ("total_insights", Json.num allInsights.length),
    ("insight_categories", Json.obj [
      ("cross_phase_correlations", Json.num
        ((allInsights.filter (fun i => (i.getN "type").eqStr "cross_phase_correlation")).length)),
      ("market_state_factors", Json.num
        ((allInsights.filter (fun i => (i.getN "type").eqStr "market_state_factor")).length)),
      ("synthesis_insights", Json.num
        ((allInsights.filter (fun i => (i.getN "type").eqStr "key_insight")).length))]),
    ("insights", Json.arr (allInsights.take 10)),
    ("confidence_level", researchFindings.getD "confidence_level" (Json.str "moderate")),
    ("research_quality", researchFindings.getD "research_quality" (Json.obj []))]

/-- `ResearchFormatter._format_risks_uncertainty`. -/
def formatRisksUncertainty (analysisData : Json) : Json :=
  let limitations := analysisData.getArrD "limitations"
  let assumptions := analysisData.getArrD "assumptions"
  let limitationRisks := limitations.map (fun limitation => Json.obj [
    ("category", Json.str "methodological_limitation"),
    ("risk", limitation),
    ("mitigation", Json.str "Recognize limitation in interpretation")])
  let assumptionRisks := assumptions.map (fun assumption => Json.obj [
    ("category", Json.str "analytical_assumption"),
    ("risk", assumption),
    ("mitigation", Json.str "Validate assumption with additional research")])
  let standardRisks := ([
    "Cryptocurrency market volatility and price fluctuations",
    "Regulatory uncertainty and policy changes",
    "Technology and security risks including hacks and vulnerabilities",
    "Liquidity risks and market manipulation potential",
    "Correlation risks with traditional financial markets"]).map
    (fun risk => Json.obj [
      ("category", Json.str "market_risk"),
      ("risk", Json.str risk),
      ("mitigation", Json.str "Comprehensive risk management and diversification")])
  let riskFactors := limitationRisks ++ assumptionRisks ++ standardRisks
  Json.obj [
    ("section_title", Json.str "KEY RISKS & UNCERTAINTY"),
    ("risk_categories", Json.obj [
      ("methodological_limitations", Json.num
        ((riskFactors.filter (fun r => (r.getN "category").eqStr "methodological_limitation")).length)),
      ("analytical_assumptions", Json.num
        ((riskFactors.filter (fun r => (r.getN "category").eqStr "analytical_assumption")).length)),
      ("market_risks", Json.num
        ((riskFactors.filter (fun r => (r.getN "category").eqStr "market_risk")).length))]),
    ("risk_factors", Json.arr (riskFactors.take 15)),
    ("uncertainty_level", Json.str "moderate_to_high"),
    ("research_limitations", Json.arr limitations),
    ("key_assumptions", Json.arr assumptions),
    ("confidence_caveats", Json.arr [
      Json.str "Analysis based on educational frameworks, not real-time data",
      Json.str "Market conditions can change rapidly and unpredictably",
      Json.str "Historical patterns may not repeat in future conditions",
      Json.str "Multiple factors influence cryptocurrency market dynamics"])]

/-- The number carried by a value, with a default for other shapes. -/
def Json.asNumD (j : Json) (d : Rat) : Rat :=
  match j with
  | Json.num q => q
  | _ => d

/-- The `success_rate` f-string of `_format_report_metadata`:
`f"{(pe.get('phases_completed', 0) / max(pe.get('total_phases', 1), 1)) * 100:.1f}%"`. -/
def successRateString (pipelineExecution : Json) : String :=
  let completed := (pipelineExecution.getD "phases_completed" (Json.num 0)).asNumD 0
  let total := (pipelineExecution.getD "total_phases" (Json.num 1)).asNumD 1
  fmtOneDecimal (completed / max total 1 * 100) ++ "%"

/-- `ResearchFormatter._format_report_metadata`. -/
def formatReportMetadata (analysisData : Json) (fmtTs : String) : Json :=
  let researchMetadata := analysisData.getD "research_metadata" (Json.obj [])
  let pipelineExecution := analysisData.getD "pipeline_execution" (Json.obj [])
  let researchQuality := (analysisData.getD "research_findings" (Json.obj [])).getD
    "research_quality" (Json.obj [])
  Json.obj [
    ("research_metadata", Json.obj [
      ("report_id", researchMetadata.getD "research_id" (Json.str "UNKNOWN")),
      ("query", researchMetadata.getD "query" (Json.str "")),
      ("assets_analyzed", researchMetadata.getD "assets_analyzed" (Json.arr [])),
      ("timestamp", researchMetadata.getD "timestamp" (Json.str fmtTs)),
      ("execution_time_seconds", researchMetadata.getD "total_execution_time" (Json.num 0)),
      ("pipeline_version", researchMetadata.getD "pipeline_version" (Json.str "1.0.0"))]),
    ("execution_summary", Json.obj [
      ("phases_completed", pipelineExecution.getD "phases_completed" (Json.num 0)),
      ("total_phases", pipelineExecution.getD "total_phases" (Json.num 0)),
      ("success_rate", Json.str (successRateString pipelineExecution))]),
    ("quality_metrics", researchQuality),
    ("data_sources", Json.str "Educational and conceptual frameworks"),
    ("analytical_approach", Json.str "Structured research pipeline with deterministic methodology"),
    ("report_classification", Json.str "EDUCATIONAL RESEARCH - NOT FINANCIAL ADVICE")]

/-- `ResearchFormatter._error_response`. -/
def formatterErrorResponse (_query : String) (errorMessage : String)
    (fmtTs : String) : Json :=
  Json.obj [
    ("error", Json.bool true),
    ("message", Json.str ("Research report formatting failed: " ++ errorMessage)),
    ("disclaimer", Json.str professionalDisclaimer),
    ("timestamp", Json.str fmtTs)]

/-- `ResearchFormatter.format_research_report` (each embedded section is
total, so the catch-all `_error_response` branch is never taken here; that
branch is embedded separately as `formatterErrorResponse`). -/
def formatResearchReport (analysisData : Json) (userQuery : String)
    (fmtTs : String) : Json :=
  Json.obj [
    ("report_header", formatReportHeader analysisData userQuery fmtTs),
    ("research_focus", formatResearchFocus userQuery analysisData),
    ("macro_context", formatMacroContext analysisData),
    ("market_sentiment", formatMarketSentiment analysisData),
    ("onchain_overview", formatOnchainOverview analysisData),
    ("market_structure", formatMarketStructureSection analysisData),
    ("key_insights", formatKeyInsights analysisData),
    ("risks_uncertainty", formatRisksUncertainty analysisData),
    ("disclaimer", Json.str professionalDisclaimer),
    ("report_metadata", formatReportMetadata analysisData fmtTs)]

/-! ## src/api/app.py -/

/-- An `HTTPException` as the endpoint raises it. -/
structure HttpError where
  status : Nat
  detail : String
deriving DecidableEq

/-- `_convert_to_api_response` (dict subscripts inside it can raise, and the
endpoint's generic `except` turns that into a 500). -/
def convertToApiResponse (researchReport : Json) (query : String) :
    Except String Json := do
  let reportHeader ← jidx researchReport "report_header"
  let publicationDate ← jidx reportHeader "publication_date"
  let headerForSummary ← jidx researchReport "report_header"
  let title ← jidx headerForSummary "title"
  let researchFocus ← jidx researchReport "research_focus"
  let researchObjective ← jidx researchFocus "research_objective"
  let keyInsights ← ((researchReport.getD "key_insights" (Json.obj [])).getArrD
    "insights").mapM (fun insight => jidx insight "insight")
  let riskFactors ← ((researchReport.getD "risks_uncertainty" (Json.obj [])).getArrD
    "risk_factors").mapM (fun risk => jidx risk "risk")
  pure (Json.obj [
    ("query", Json.str query),
    ("timestamp", publicationDate),
    ("summary", Json.str (title.asStr ++ " - " ++ researchObjective.asStr)),
    ("market_conditions", Json.obj [
      ("overall_state", Json.str "neutral"),
      ("key_factors", Json.arr []),
      ("confidence_level", Json.str "moderate")]),
    ("analysis_sections", Json.obj [
      ("macroeconomic", researchReport.getD "macro_context" (Json.obj [])),
      ("sentiment", researchReport.getD "market_sentiment" (Json.obj [])),
      ("onchain", researchReport.getD "onchain_overview" (Json.obj [])),
      ("market_structure", researchReport.getD "market_structure" (Json.obj []))]),
    ("key_insights", Json.arr keyInsights),
    ("risk_factors", Json.arr riskFactors),
    ("educational_context", Json.str (pyJoin "\n"
      (((researchReport.getD "research_focus" (Json.obj [])).getArrD "methodology").map
        Json.asStr))),
    ("disclaimer", researchReport.getD "disclaimer" (Json.str "")),
    ("metadata", researchReport.getD "report_metadata" (Json.obj []))])

/-- `analyze_market` after validation: the analysis outcome is passed in so
that the endpoint's handling of an error dict (HTTP 500) and of a raised
exception (generic 500) is statable for any outcome. -/
def analyzeMarketTail (query : String) (analysisOutcome : Except String Json)
    (fmtTs : String) : Except HttpError Json :=
  match analysisOutcome with
  | Except.error e =>
    Except.error ⟨500, "Internal server error during analysis: " ++ e⟩
  | Except.ok analysisResult =>
    if (analysisResult.getN "error").truthy then
      Except.error ⟨500, "Analysis failed: "
        ++ analysisResult.getStrD "message" "Unknown error"⟩
    else
      let researchReport := formatResearchReport analysisResult query fmtTs
      match convertToApiResponse researchReport query with
      | Except.ok formattedResponse => Except.ok formattedResponse
      | Except.error e =>
        Except.error ⟨500, "Internal server error during analysis: " ++ e⟩

/-- The asset validation of `analyze_market` (lines 141-152): a falsy assets
value gives `None`; more than 10 entries is a 400; otherwise entries are
lower-cased and stripped, empty-after-strip entries dropped. -/
def processAssets (assets : Option (List String)) :
    Except HttpError (Option (List String)) :=
  match assets with
  | some l =>
    if l.isEmpty then Except.ok none
    else if l.length > 10 then
      Except.error ⟨400, "Maximum 10 assets allowed per request"⟩
    else
      Except.ok (some ((l.filter (fun a => ¬ pyStrip a = "")).map
        (fun a => pyStrip (pyLower a))))
  | none => Except.ok none

/-- `analyze_market` (POST /analyze): query validation, asset validation,
then the analysis/formatting tail. -/
def analyzeMarket (query : String) (assets : Option (List String))
    (rt : Runtime) : Except HttpError Json :=
  if query = "" ∨ (pyStrip query).length < 3 then
    Except.error ⟨400, "Query must be at least 3 characters long"⟩
  else
    match processAssets assets with
    | Except.error e => Except.error e
    | Except.ok assetList =>
      analyzeMarketTail query
        (Except.ok (macroChainAnalyze query assetList rt)) rt.fmtTs

/-- The HTTP status of an endpoint outcome (`none` for a 200 body). -/
def httpStatus : Except HttpError Json → Option Nat
  | Except.error e => some e.status
  | Except.ok _ => none

/-- `HealthResponse` from src/api/app.py. -/
structure HealthResponse where
  status : String
  timestamp : String
  version : String
  components : List (String × String)
deriving DecidableEq

/-- `health_check` (GET /health): stateless, built only from the module
api_config and the current timestamp. -/
def healthCheck (s : Settings) (ts : String) : HealthResponse :=
  ⟨"healthy", ts, ((getApiConfig s).getN "version").asStr,
   [("analyzer", "healthy"), ("formatter", "healthy"), ("api", "healthy")]⟩

/-! ## Theorems settling the claims -/

/-- A concrete runtime used by the witnesses. -/
def rtWitness : Runtime :=
  ⟨"2024-01-01T00:00:00Z", "00000000-0000-0000-0000-000000000000",
   fun _ => "2024-01-01T00:00:00Z", fun _ => 0, 0, "2024-01-01T00:00:00Z"⟩

/-- The asset-list validation bound of `analyze_market`: at most 10 raw
entries (an absent list is always accepted). -/
def assetCountOk : Option (List String) → Prop
  | none => True
  | some l => l.length ≤ 10

/-- Case analysis of the overall-state selection rule. -/
theorem overallStateIfSpec (p n : Nat) :
    (((if p > n then "positive" else if n > p then "negative" else "neutral") = "positive") ↔ n < p)
    ∧ (((if p > n then "positive" else if n > p then "negative" else "neutral") = "negative") ↔ p < n)
    ∧ (((if p > n then "positive" else if n > p then "negative" else "neutral") = "neutral") ↔ p = n) := by
  rcases Nat.lt_trichotomy p n with h | h | h
  · have h1 : ¬ p > n := by omega
    have h2 : n > p := h
    rw [if_neg h1, if_pos h2]
    exact ⟨⟨fun h' => by simp at h', fun h' => absurd h' (by omega)⟩,
      ⟨fun _ => h, fun _ => rfl⟩,
      ⟨fun h' => by simp at h', fun h' => absurd h' (by omega)⟩⟩
  · have h1 : ¬ p > n := by omega
    have h2 : ¬ n > p := by omega
    rw [if_neg h1, if_neg h2]
    exact ⟨⟨fun h' => by simp at h', fun h' => absurd h' (by omega)⟩,
      ⟨fun h' => by simp at h', fun h' => absurd h' (by omega)⟩,
      ⟨fun _ => h, fun _ => rfl⟩⟩
  · have h1 : p > n := h
    rw [if_pos h1]
    exact ⟨⟨fun _ => h, fun _ => rfl⟩,
      ⟨fun h' => by simp at h', fun h' => absurd h' (by omega)⟩,
      ⟨fun h' => by simp at h', fun h' => absurd h' (by omega)⟩⟩

/-- C7: in `ResearchPipeline._assess_overall_market_state` the overall state
is "positive" exactly when strictly more collected phase indicators lie in
{"positive", "supportive", "strong"} than in {"negative", "challenging",
"weak"}, "negative" exactly in the mirrored case, and "neutral" exactly when
the two counts agree. -/
theorem macrochain_C7_overall_state_counting
    (macroD sentimentD onchainD structureD : Json) :
    let indicators := stateIndicatorsOf macroD sentimentD onchainD structureD
    let p := positiveStateCount indicators
    let n := negativeStateCount indicators
    (((assessOverallMarketState macroD sentimentD onchainD structureD).getN "overall_state"
        = Json.str "positive") ↔ n < p)
    ∧ (((assessOverallMarketState macroD sentimentD onchainD structureD).getN "overall_state"
        = Json.str "negative") ↔ p < n)
    ∧ (((assessOverallMarketState macroD sentimentD onchainD structureD).getN "overall_state"
        = Json.str "neutral") ↔ p = n) := by
  intro indicators p n
  have hget : (assessOverallMarketState macroD sentimentD onchainD structureD).getN "overall_state"
      = Json.str (if p > n then "positive" else if n > p then "negative" else "neutral") := by
    simp only [assessOverallMarketState, Json.getN, Json.getD, Json.get?, jlookup,
      if_pos, Option.getD, p, n, indicators]
  rw [hget]
  have hs := overallStateIfSpec p n
  simp only [Json.str.injEq]
  exact hs

/-- C6: each of the four phase analyzers is input-independent — for any two
queries, asset lists and run timestamps, the returned dictionaries agree
once the `timestamp` field is removed (the on-chain analyzer's error
response carries no timestamp at all). -/
theorem macrochain_C6_analyzers_input_independent
    (q1 q2 : String) (a1 a2 : List String) (ts1 ts2 : String) :
    (macroAnalyze q1 a1 ts1).removeKey "timestamp"
      = (macroAnalyze q2 a2 ts2).removeKey "timestamp"
    ∧ (sentimentAnalyze q1 a1 ts1).removeKey "timestamp"
      = (sentimentAnalyze q2 a2 ts2).removeKey "timestamp"
    ∧ (onchainAnalyze q1 a1 ts1).removeKey "timestamp"
      = (onchainAnalyze q2 a2 ts2).removeKey "timestamp"
    ∧ (marketStructureAnalyze q1 a1 ts1).removeKey "timestamp"
      = (marketStructureAnalyze q2 a2 ts2).removeKey "timestamp" :=
  ⟨rfl, rfl, rfl, rfl⟩

/-- C10: `health_check` always reports status "healthy" and the configured
`api_version`, whose default is "1.0.0"; it depends on no request state. -/
theorem macrochain_C10_health_healthy_and_version
    (s : Settings) (ts : String) :
    (healthCheck s ts).status = "healthy"
    ∧ (healthCheck s ts).version = s.apiVersion
    ∧ settingsDefault.apiVersion = "1.0.0" :=
  ⟨rfl, rfl, rfl⟩

/-- C4: a query that is empty or shorter than 3 characters after stripping
makes POST /analyze return the 400 error before any analysis runs. -/
theorem macrochain_C4_short_query_400
    (q : String) (a : Option (List String)) (rt : Runtime)
    (h : (pyStrip q).length < 3) :
    analyzeMarket q a rt
      = Except.error ⟨400, "Query must be at least 3 characters long"⟩ := by
  unfold analyzeMarket
  rw [if_pos (Or.inr h)]

/-- Witness for C4 at the query "ab". -/
theorem macrochain_C4_short_query_400_witness :
    (pyStrip "ab").length < 3
    ∧ analyzeMarket "ab" none rtWitness
      = Except.error ⟨400, "Query must be at least 3 characters long"⟩ :=
  ⟨by decide, macrochain_C4_short_query_400 "ab" none rtWitness (by decide)⟩

/-- C5: a request whose raw assets list has more than 10 entries always gets
HTTP status 400 (either the asset-count detail, or the query detail when
the query is also invalid), and no analysis runs. -/
theorem macrochain_C5_too_many_assets_400
    (q : String) (l : List String) (rt : Runtime) (h : 10 < l.length) :
    httpStatus (analyzeMarket q (some l) rt) = some 400 := by
  unfold analyzeMarket
  by_cases hq : q = "" ∨ (pyStrip q).length < 3
  · rw [if_pos hq]
    rfl
  · rw [if_neg hq]
    have hne : l.isEmpty = false := by
      cases l with
      | nil => simp at h
      | cons x xs => rfl
    have h10 : l.length > 10 := h
    simp only [processAssets, hne, Bool.false_eq_true, if_false, h10, if_true]
    rfl

/-- Witness for C5 at a valid query and an 11-entry asset list. -/
theorem macrochain_C5_too_many_assets_400_witness :
    10 < (["a", "b", "c", "d", "e", "f", "g", "h", "i", "j", "k"] : List String).length
    ∧ httpStatus (analyzeMarket "bitcoin outlook"
        (some ["a", "b", "c", "d", "e", "f", "g", "h", "i", "j", "k"]) rtWitness)
      = some 400 :=
  ⟨by decide, macrochain_C5_too_many_assets_400 "bitcoin outlook"
    ["a", "b", "c", "d", "e", "f", "g", "h", "i", "j", "k"] rtWitness (by decide)⟩

/-- C2: POST /analyze is deterministic in the request — for a fixed query
and asset list, any two runs (any timestamps, uuid, durations) produce the
same `analysis_sections` and the same `key_insights`. -/
theorem macrochain_C2_deterministic
    (q : String) (a : Option (List String)) (rt1 rt2 : Runtime) :
    (analyzeMarket q a rt1).map (fun r => r.getN "analysis_sections")
      = (analyzeMarket q a rt2).map (fun r => r.getN "analysis_sections")
    ∧ (analyzeMarket q a rt1).map (fun r => r.getN "key_insights")
      = (analyzeMarket q a rt2).map (fun r => r.getN "key_insights") := by
  constructor <;>
  · unfold analyzeMarket
    by_cases hq : q = "" ∨ (pyStrip q).length < 3
    · rw [if_pos hq, if_pos hq]
    · rw [if_neg hq, if_neg hq]
      cases hpa : processAssets a with
      | error e => rfl
      | ok assetList => rfl

/-- C3: every successful POST /analyze response has an empty `key_insights`
list — the analyzer's reformatted output carries no `research_findings`
key, so `_format_key_insights` works from an empty dict and
`_convert_to_api_response` passes the empty list through. -/
theorem macrochain_C3_key_insights_empty
    (q : String) (a : Option (List String)) (rt : Runtime)
    (hq : ¬ (q = "" ∨ (pyStrip q).length < 3)) (ha : assetCountOk a) :
    (analyzeMarket q a rt).map (fun r => r.getN "key_insights")
      = Except.ok (Json.arr []) := by
  unfold analyzeMarket
  rw [if_neg hq]
  cases a with
  | none => rfl
  | some l =>
    by_cases he : l.isEmpty
    · have hp : processAssets (some l) = Except.ok none := by
        simp [processAssets, he]
      rw [hp]
      rfl
    · have h10 : ¬ l.length > 10 := by
        simp only [assetCountOk] at ha
        omega
      have hp : processAssets (some l)
          = Except.ok (some ((l.filter (fun x => ¬ pyStrip x = "")).map
            (fun x => pyStrip (pyLower x)))) := by
        simp [processAssets, he, h10]
      rw [hp]
      rfl

/-- Witness for C3 at the query "bitcoin market outlook" with no assets. -/
theorem macrochain_C3_key_insights_empty_witness :
    (¬ (("bitcoin market outlook" : String) = ""
        ∨ (pyStrip "bitcoin market outlook").length < 3))
    ∧ (analyzeMarket "bitcoin market outlook" none rtWitness).map
        (fun r => r.getN "key_insights") = Except.ok (Json.arr []) :=
  ⟨by decide, macrochain_C3_key_insights_empty "bitcoin market outlook" none
    rtWitness (by decide) trivial⟩

/-- C9: the successful POST /analyze response and the error shapes of the
analyzer, the pipeline and the formatter all carry a non-empty string
`disclaimer` field. -/
theorem macrochain_C9_disclaimer_everywhere
    (q : String) (a : Option (List String)) (rt : Runtime)
    (msg : String) (ctx : ResearchContext) (fq fe fmtTs : String)
    (hq : ¬ (q = "" ∨ (pyStrip q).length < 3)) (ha : assetCountOk a) :
    ((analyzeMarket q a rt).map (fun r => r.getN "disclaimer")
        = Except.ok (Json.str professionalDisclaimer))
    ∧ (analyzerErrorResponse msg).getN "disclaimer" = Json.str analyzerDisclaimer
    ∧ (pipelineErrorResponse ctx msg).getN "disclaimer" = Json.str researchDisclaimer
    ∧ (formatterErrorResponse fq fe fmtTs).getN "disclaimer"
        = Json.str professionalDisclaimer
    ∧ ¬ professionalDisclaimer = ""
    ∧ ¬ analyzerDisclaimer = ""
    ∧ ¬ researchDisclaimer = "" := by
  refine ⟨?_, rfl, rfl, rfl, by decide, by decide, by decide⟩
  unfold analyzeMarket
  rw [if_neg hq]
  cases a with
  | none => rfl
  | some l =>
    by_cases he : l.isEmpty
    · have hp : processAssets (some l) = Except.ok none := by
        simp [processAssets, he]
      rw [hp]
      rfl
    · have h10 : ¬ l.length > 10 := by
        simp only [assetCountOk] at ha
        omega
      have hp : processAssets (some l)
          = Except.ok (some ((l.filter (fun x => ¬ pyStrip x = "")).map
            (fun x => pyStrip (pyLower x)))) := by
        simp [processAssets, he, h10]
      rw [hp]
      rfl

/-- Witness for C9 at the query "bitcoin market outlook" with no assets. -/
theorem macrochain_C9_disclaimer_everywhere_witness :
    (¬ (("bitcoin market outlook" : String) = ""
        ∨ (pyStrip "bitcoin market outlook").length < 3))
    ∧ (analyzeMarket "bitcoin market outlook" none rtWitness).map
        (fun r => r.getN "disclaimer")
      = Except.ok (Json.str professionalDisclaimer) :=
  ⟨by decide, (macrochain_C9_disclaimer_everywhere "bitcoin market outlook" none
    rtWitness "m" ⟨"q", [], "t", "r", [], []⟩ "fq" "fe" "ft"
    (by decide) trivial).1⟩

/-- C1 fails as stated: at the valid query "bitcoin market outlook" with no
assets, the response's metadata carries an empty `assets_analyzed` list,
not the defaulted `["bitcoin", "ethereum"]`. -/
theorem macrochain_C1_counterexample :
    (analyzeMarket "bitcoin market outlook" none rtWitness).map
      (fun r => ((r.getN "metadata").getN "research_metadata").getN "assets_analyzed")
      = Except.ok (Json.arr [])
    ∧ ¬ ((analyzeMarket "bitcoin market outlook" none rtWitness).map
      (fun r => ((r.getN "metadata").getN "research_metadata").getN "assets_analyzed")
      = Except.ok (Json.arr [Json.str "bitcoin", Json.str "ethereum"])) := by
  constructor
  · rfl
  · intro hcontra
    rw [show (analyzeMarket "bitcoin market outlook" none rtWitness).map
      (fun r => ((r.getN "metadata").getN "research_metadata").getN "assets_analyzed")
      = Except.ok (Json.arr []) from rfl] at hcontra
    simp only [Except.ok.injEq, Json.arr.injEq] at hcontra
    exact List.noConfusion hcontra

/-- C1 amended: with a valid query and no assets, the pipeline does default
the asset list to `["bitcoin", "ethereum"]` in its own
`research_metadata`, but the API response's metadata carries an empty
asset list (the backward-compatibility reformatting drops the
`research_metadata` key the formatter reads), and the response's
`disclaimer` equals the fixed non-empty disclaimer text. -/
theorem macrochain_C1_default_assets_and_disclaimer
    (q : String) (rt : Runtime)
    (hq : ¬ (q = "" ∨ (pyStrip q).length < 3)) :
    (((executeResearch q none rt).getN "research_metadata").getN "assets_analyzed"
        = Json.arr [Json.str "bitcoin", Json.str "ethereum"])
    ∧ ((analyzeMarket q none rt).map
        (fun r => ((r.getN "metadata").getN "research_metadata").getN "assets_analyzed")
        = Except.ok (Json.arr []))
    ∧ ((analyzeMarket q none rt).map (fun r => r.getN "disclaimer")
        = Except.ok (Json.str professionalDisclaimer))
    ∧ ¬ professionalDisclaimer = "" := by
  refine ⟨rfl, ?_, ?_, by decide⟩ <;>
  · unfold analyzeMarket
    rw [if_neg hq]
    rfl

/-- Witness for the amended C1 at the query "bitcoin market outlook". -/
theorem macrochain_C1_default_assets_and_disclaimer_witness :
    (¬ (("bitcoin market outlook" : String) = ""
        ∨ (pyStrip "bitcoin market outlook").length < 3))
    ∧ (((executeResearch "bitcoin market outlook" none rtWitness).getN
        "research_metadata").getN "assets_analyzed"
      = Json.arr [Json.str "bitcoin", Json.str "ethereum"]) :=
  ⟨by decide, (macrochain_C1_default_assets_and_disclaimer "bitcoin market outlook"
    rtWitness (by decide)).1⟩

/-- C8: an exception from the analysis layers is caught by
`MacroChainAnalyzer.analyze` and turned into `{error: true, message}`, and
the endpoint turns an error result (or a raised exception) into an HTTP 500
with a text detail. -/
theorem macrochain_C8_errors_wrapped
    (e q fmtTs : String) (res : Json) :
    (macroChainAnalyzeRun (Except.error e)).getN "error" = Json.bool true
    ∧ (macroChainAnalyzeRun (Except.error e)).getN "message"
        = Json.str ("Analysis failed: " ++ e)
    ∧ ((res.getN "error").truthy → analyzeMarketTail q (Except.ok res) fmtTs
        = Except.error ⟨500, "Analysis failed: "
            ++ res.getStrD "message" "Unknown error"⟩)
    ∧ analyzeMarketTail q (Except.error e) fmtTs
        = Except.error ⟨500, "Internal server error during analysis: " ++ e⟩ := by
  refine ⟨rfl, rfl, ?_, rfl⟩
  intro h
  simp only [analyzeMarketTail]
  rw [if_pos h]

/-- Witness for C8 at a concrete error dict. -/
theorem macrochain_C8_errors_wrapped_witness :
    ((Json.obj [("error", Json.bool true)]).getN "error").truthy = true
    ∧ analyzeMarketTail "abc"
        (Except.ok (Json.obj [("error", Json.bool true)])) "T"
      = Except.error ⟨500, "Analysis failed: "
          ++ (Json.obj [("error", Json.bool true)]).getStrD "message" "Unknown error"⟩ :=
  ⟨rfl, (macrochain_C8_errors_wrapped "boom" "abc" "T"
    (Json.obj [("error", Json.bool true)])).2.2.1 rfl⟩
